import Mathlib

/-!
# Order service of the Shopify GraphQL accessor (`order.go`)

A shallow embedding of `order.go`: the record types, the five operations of
`OrderServiceOp` (`Get`, `List`, `ListAll`, `Update`,
`GetFulfillmentOrdersAtLocation`) and the query documents they build.

Conventions of the embedding.

* A Go `string` is a Lean `String`; the string functions used by the code
  (`strings.ReplaceAll`, `fmt.Sprintf` with the verb `%s`) are defined on the
  character list of the string.
* A Go slice is a `Slice`: either `nil` or a (possibly empty) list of elements.
* A Go pointer is an `Option`.
* `graphql.ID` is an interface type (the code converts it with `.(string)`), so
  an `ID` is a dynamically typed value, `Dyn`.
* The two collaborators of the service (the GraphQL client with `QueryString`
  and `Mutate`, and the bulk operation service with `BulkQuery`) are fields of
  `Client`. Each takes the current content of its output argument and returns
  the new content together with the error it reports.
* Every operation returns a `Run`: the collaborator calls it made, in order,
  and how it ended (a returned value, or a run-time panic). An operation
  reaches a collaborator through `Client.callQueryString`, `Client.callMutate`
  and the two `Client.callBulkQuery...` functions, which record the call.
-/

namespace Shopify

/-! ## Go values -/

/-- A Go slice: `nil`, or a backing list of elements (which may be empty). -/
inductive Slice (α : Type) where
  | nil
  | elems (xs : List α)

namespace Slice

/-- The elements of a slice; a nil slice has none. -/
def toList {α : Type} : Slice α → List α
  | nil => []
  | elems xs => xs

/-- Go `len(s)`. -/
def len {α : Type} (s : Slice α) : Nat := s.toList.length

/-- Go `s == nil`. -/
def isNil {α : Type} : Slice α → Bool
  | nil => true
  | elems _ => false

end Slice

/-- A value held in a Go `interface{}`: the nil interface, or a value together
with its dynamic type. Strings, integers and booleans stand for the dynamic
types a caller can store in a `graphql.ID`. -/
inductive Dyn where
  | nil
  | string (s : String)
  | int (n : Int)
  | bool (b : Bool)

/-- The type `graphql.ID`, an interface type without methods. -/
abbrev ID := Dyn

/-- The type assertion `v.(string)`: the string held by `v`, or `none` when the
assertion fails (the Go run time panics then). -/
def Dyn.assertString : Dyn → Option String
  | Dyn.string s => some s
  | _ => none

/-- Whether the dynamic type of the value is `string`. -/
def Dyn.isString : Dyn → Bool
  | Dyn.string _ => true
  | _ => false

/-- Whether the value is the nil interface. -/
def Dyn.isNil : Dyn → Bool
  | Dyn.nil => true
  | _ => false

/-- A Go `error` value: its dynamic type and the text of its `Error()` method. -/
structure GoError where
  dynType : String
  text : String

/-! ## String functions -/

/-- Replacement of the non-overlapping occurrences of `old` by `new`, scanning
from the left. The counter is the number of characters of a matched occurrence
that are still to be skipped. -/
def replaceFrom (old new : List Char) : Nat → List Char → List Char
  | _, [] => []
  | skip + 1, _ :: cs => replaceFrom old new skip cs
  | 0, c :: cs =>
    if old.isPrefixOf (c :: cs) then new ++ replaceFrom old new (old.length - 1) cs
    else c :: replaceFrom old new 0 cs

/-- Go `strings.ReplaceAll(s, old, new)`. An empty `old` matches before every
character and at the end of the string. -/
def ReplaceAll (s old new : String) : String :=
  if old.data = [] then ⟨new.data ++ (s.data.map (fun c => c :: new.data)).flatten⟩
  else ⟨replaceFrom old.data new.data 0 s.data⟩

/-- The verbs of a format string, for the formats of `order.go`: each `%s` is
replaced by the next argument; a `%s` without an argument is rendered as Go
does. -/
def sprintfChars (args : List String) : List Char → List Char
  | '%' :: 's' :: cs =>
    match args with
    | a :: rest => a.data ++ sprintfChars rest cs
    | [] => "%!s(MISSING)".data ++ sprintfChars [] cs
  | c :: cs => c :: sprintfChars args cs
  | [] => []

/-- Go `fmt.Sprintf(format, args...)` for string arguments and the verb `%s`. -/
def Sprintf (format : String) (args : List String) : String :=
  ⟨sprintfChars args format.data⟩

/-- The given strings, in order, with one space between neighbours. -/
def joinWithSpace : List String → List Char
  | [] => []
  | [a] => a.data
  | a :: b :: rest => a.data ++ ' ' :: joinWithSpace (b :: rest)

/-- The rendering of a slice by the verbs `%v` and `%+v`: the renderings of the
elements, separated by one space, between square brackets. -/
def formatSlice {α : Type} (render : α → String) (s : Slice α) : String :=
  ⟨'[' :: (joinWithSpace (s.toList.map render) ++ [']'])⟩

/-- Go `fmt.Errorf` for a format without the verb `%w`: an error whose text is
the formatted message. -/
def Errorf (message : String) : GoError :=
  { dynType := "*errors.errorString", text := message }

/-- The number of positions of `s` at which `p` occurs. -/
def occurrences (p : List Char) : List Char → Nat
  | [] => 0
  | c :: cs => (if p.isPrefixOf (c :: cs) then 1 else 0) + occurrences p cs

/-! ## JSON values and the encoding of the mutation input -/

/-- A JSON value. -/
inductive JSON where
  | null
  | bool (b : Bool)
  | number (n : Int)
  | string (s : String)
  | array (xs : List JSON)
  | object (members : List (String × JSON))

/-- The keys of a JSON object, in order. -/
def JSON.keys : JSON → List String
  | JSON.object members => members.map Prod.fst
  | _ => []

/-- The member of a JSON object with the given key. -/
def JSON.member (key : String) : JSON → Option JSON
  | JSON.object members => (members.find? (fun m => m.1 == key)).map Prod.snd
  | _ => none

/-- The JSON encoding of a dynamically typed value. -/
def Dyn.toJSON : Dyn → JSON
  | Dyn.nil => JSON.null
  | Dyn.string s => JSON.string s
  | Dyn.int n => JSON.number n
  | Dyn.bool b => JSON.bool b

/-! ## Declarations of the package outside `order.go` -/

/-- The types that `order.go` uses and that are declared elsewhere (in the
package and in the `graphql` library), with the zero values of those that occur
as plain fields and the `%+v` rendering of a `UserErrors` value. -/
structure Decls where
  DateTime : Type
  Customer : Type
  MoneyBag : Type
  MailingAddress : Type
  SelectedOption : Type
  UserErrors : Type
  Float : Type
  zeroDateTime : DateTime
  zeroCustomer : Customer
  zeroMoneyBag : MoneyBag
  zeroMailingAddress : MailingAddress
  formatUserErrors : UserErrors → String

/-! ## Records of `order.go` -/

structure ShippingLine (D : Decls) where
  Title : String
  OriginalPriceSet : D.MoneyBag

structure TaxLine (D : Decls) where
  PriceSet : D.MoneyBag
  Rate : D.Float
  RatePercentage : D.Float
  Title : String

structure LineItemProduct where
  ID : ID
  LegacyResourceID : String

structure LineItemVariant (D : Decls) where
  ID : ID
  LegacyResourceID : String
  SelectedOptions : Slice D.SelectedOption

structure LineItem (D : Decls) where
  ID : ID
  SKU : String
  Quantity : Int
  FulfillableQuantity : Int
  Vendor : String
  Title : String
  VariantTitle : String
  Product : LineItemProduct
  Variant : LineItemVariant D
  OriginalTotalSet : D.MoneyBag
  OriginalUnitPriceSet : D.MoneyBag
  DiscountedUnitPriceSet : D.MoneyBag

structure OrderLineItemNode (D : Decls) where
  Node : LineItem D

/-- The type `FulfillmentOrderStatus`, a string type. -/
abbrev FulfillmentOrderStatus := String

structure FulfillmentOrderLineItem (D : Decls) where
  ID : ID
  RemainingQuantity : Int
  TotalQuantity : Int
  LineItem : LineItem D

structure FulfillmentOrder (D : Decls) where
  ID : ID
  Status : FulfillmentOrderStatus
  FulfillmentOrderLineItems : Slice (FulfillmentOrderLineItem D)

structure OrderBase (D : Decls) where
  ID : ID
  LegacyResourceID : String
  Name : String
  CreatedAt : D.DateTime
  Customer : D.Customer
  ClientIP : String
  TaxLines : Slice (TaxLine D)
  TotalReceivedSet : D.MoneyBag
  ShippingAddress : D.MailingAddress
  ShippingLine : ShippingLine D
  Note : String
  Tags : Slice String

/-- The flat form of an order. -/
structure Order (D : Decls) extends OrderBase D where
  LineItems : Slice (LineItem D)
  FulfillmentOrders : Slice (FulfillmentOrder D)

/-- An element of `OrderQueryResult.LineItems.Edges`. -/
structure LineItemEdge (D : Decls) where
  LineItem : LineItem D

/-- The field `OrderQueryResult.LineItems`. -/
structure LineItemConnection (D : Decls) where
  Edges : Slice (LineItemEdge D)

/-- An element of the `Edges` of the line items of a fulfillment order. -/
structure FulfillmentOrderLineItemEdge (D : Decls) where
  LineItem : FulfillmentOrderLineItem D

/-- The field `FulfillmentOrderLineItems` of a fulfillment order node. -/
structure FulfillmentOrderLineItemConnection (D : Decls) where
  Edges : Slice (FulfillmentOrderLineItemEdge D)

/-- The field `FulfillmentOrder` of an element of
`OrderQueryResult.FulfillmentOrders.Edges`. -/
structure FulfillmentOrderNode (D : Decls) where
  ID : ID
  Status : FulfillmentOrderStatus
  FulfillmentOrderLineItems : FulfillmentOrderLineItemConnection D

/-- An element of `OrderQueryResult.FulfillmentOrders.Edges`. -/
structure FulfillmentOrderEdge (D : Decls) where
  FulfillmentOrder : FulfillmentOrderNode D

/-- The field `OrderQueryResult.FulfillmentOrders`. -/
structure FulfillmentOrderConnection (D : Decls) where
  Edges : Slice (FulfillmentOrderEdge D)

/-- The connection form of an order, as `Get` decodes it. -/
structure OrderQueryResult (D : Decls) extends OrderBase D where
  LineItems : LineItemConnection D
  FulfillmentOrders : FulfillmentOrderConnection D

structure OrderUpdateResult (D : Decls) where
  UserErrors : Slice D.UserErrors

structure mutationOrderUpdate (D : Decls) where
  OrderUpdateResult : OrderUpdateResult D

structure OrderInput where
  ID : ID
  Tags : Slice String
  Note : String

/-- The zero value of `OrderBase`. -/
def OrderBase.zero (D : Decls) : OrderBase D :=
  { ID := Dyn.nil, LegacyResourceID := "", Name := "", CreatedAt := D.zeroDateTime,
    Customer := D.zeroCustomer, ClientIP := "", TaxLines := Slice.nil,
    TotalReceivedSet := D.zeroMoneyBag, ShippingAddress := D.zeroMailingAddress,
    ShippingLine := { Title := "", OriginalPriceSet := D.zeroMoneyBag },
    Note := "", Tags := Slice.nil }

/-- The zero value of `OrderQueryResult`. -/
def OrderQueryResult.zero (D : Decls) : OrderQueryResult D :=
  { toOrderBase := OrderBase.zero D, LineItems := { Edges := Slice.nil },
    FulfillmentOrders := { Edges := Slice.nil } }

/-- The JSON encoding of an `OrderInput`, by its field tags `id,omitempty`,
`tags,omitempty` and `note,omitempty`: a member is left out when its field is
empty, which for an interface value means nil and for a slice or a string means
length zero. -/
def OrderInput.toJSON (input : OrderInput) : JSON :=
  JSON.object
    ((match input.ID with
      | Dyn.nil => []
      | v => [("id", v.toJSON)]) ++
     (if input.Tags.len = 0 then []
      else [("tags", JSON.array (input.Tags.toList.map JSON.string))]) ++
     (if input.Note.length = 0 then [] else [("note", JSON.string input.Note)]))

/-! ## Query documents -/

def orderBaseQuery : String :=
  String.join [
    "\n",
    "\tid\n",
    "\tlegacyResourceId\n",
    "\tname\n",
    "\tcreatedAt\n",
    "\tcustomer\x7b\n",
    "\t\tid\n",
    "\t\tlegacyResourceId\n",
    "\t\tfirstName\n",
    "\t\tdisplayName\n",
    "\t\temail\n",
    "\t\x7d\n",
    "\tclientIp\n",
    "\tshippingAddress\x7b\n",
    "\t\taddress1\n",
    "\t\taddress2\n",
    "\t\tcity\n",
    "\t\tprovince\n",
    "\t\tcountry\n",
    "\t\tzip\n",
    "\t\x7d\n",
    "\tshippingLine\x7b\n",
    "\t\toriginalPriceSet\x7b\n",
    "\t\t\tpresentmentMoney\x7b\n",
    "\t\t\t\tamount\n",
    "\t\t\t\tcurrencyCode\n",
    "\t\t\t\x7d\n",
    "\t\t\tshopMoney\x7b\n",
    "\t\t\t\tamount\n",
    "\t\t\t\tcurrencyCode\n",
    "\t\t\t\x7d\n",
    "\t\t\x7d\n",
    "\t\ttitle\n",
    "\t\x7d\n",
    "\ttaxLines\x7b\n",
    "\t\tpriceSet\x7b\n",
    "\t\t\tpresentmentMoney\x7b\n",
    "\t\t\t\tamount\n",
    "\t\t\t\tcurrencyCode\n",
    "\t\t\t\x7d\n",
    "\t\t\tshopMoney\x7b\n",
    "\t\t\t\tamount\n",
    "\t\t\t\tcurrencyCode\n",
    "\t\t\t\x7d\n",
    "\t\t\x7d\n",
    "\t\trate\n",
    "\t\tratePercentage\n",
    "\t\ttitle\n",
    "\t\x7d\n",
    "\ttotalReceivedSet\x7b\n",
    "\t\tpresentmentMoney\x7b\n",
    "\t\t\tamount\n",
    "\t\t\tcurrencyCode\n",
    "\t\t\x7d\n",
    "\t\tshopMoney\x7b\n",
    "\t\t\tamount\n",
    "\t\t\tcurrencyCode\n",
    "\t\t\x7d\n",
    "\t\x7d\n",
    "\tnote\n",
    "\ttags\n"]

def getFormat : String :=
  String.join [
    "\n",
    "\t\tquery order($id: ID!) \x7b\n",
    "\t\t\tnode(id: $id)\x7b\n",
    "\t\t\t\t... on Order \x7b\n",
    "\t\t\t\t\t%s\n",
    "\t\t\t\t\tlineItems(first:50)\x7b\n",
    "\t\t\t\t\t\tedges\x7b\n",
    "\t\t\t\t\t\t\tnode\x7b\n",
    "\t\t\t\t\t\t\t\tid\n",
    "\t\t\t\t\t\t\t\tsku\n",
    "\t\t\t\t\t\t\t\tquantity\n",
    "\t\t\t\t\t\t\t\tfulfillableQuantity\n",
    "\t\t\t\t\t\t\t\tproduct\x7b\n",
    "\t\t\t\t\t\t\t\t\tid\n",
    "\t\t\t\t\t\t\t\t\tlegacyResourceId\t\t\t\t\t\t\t\t\t\t\n",
    "\t\t\t\t\t\t\t\t\x7d\n",
    "\t\t\t\t\t\t\t\tvendor\n",
    "\t\t\t\t\t\t\t\ttitle\n",
    "\t\t\t\t\t\t\t\tvariantTitle\n",
    "\t\t\t\t\t\t\t\tvariant\x7b\n",
    "\t\t\t\t\t\t\t\t\tid\n",
    "\t\t\t\t\t\t\t\t\tlegacyResourceId\t\n",
    "\t\t\t\t\t\t\t\t\tselectedOptions\x7b\n",
    "\t\t\t\t\t\t\t\t\t\tname\n",
    "\t\t\t\t\t\t\t\t\t\tvalue\n",
    "\t\t\t\t\t\t\t\t\t\x7d\t\t\t\t\t\t\t\t\t\n",
    "\t\t\t\t\t\t\t\t\x7d\n",
    "\t\t\t\t\t\t\t\toriginalTotalSet\x7b\n",
    "\t\t\t\t\t\t\t\t\tpresentmentMoney\x7b\n",
    "\t\t\t\t\t\t\t\t\t\tamount\n",
    "\t\t\t\t\t\t\t\t\t\tcurrencyCode\n",
    "\t\t\t\t\t\t\t\t\t\x7d\n",
    "\t\t\t\t\t\t\t\t\tshopMoney\x7b\n",
    "\t\t\t\t\t\t\t\t\t\tamount\n",
    "\t\t\t\t\t\t\t\t\t\tcurrencyCode\n",
    "\t\t\t\t\t\t\t\t\t\x7d\n",
    "\t\t\t\t\t\t\t\t\x7d\n",
    "\t\t\t\t\t\t\t\toriginalUnitPriceSet\x7b\n",
    "\t\t\t\t\t\t\t\t\tpresentmentMoney\x7b\n",
    "\t\t\t\t\t\t\t\t\t\tamount\n",
    "\t\t\t\t\t\t\t\t\t\tcurrencyCode\n",
    "\t\t\t\t\t\t\t\t\t\x7d\n",
    "\t\t\t\t\t\t\t\t\tshopMoney\x7b\n",
    "\t\t\t\t\t\t\t\t\t\tamount\n",
    "\t\t\t\t\t\t\t\t\t\tcurrencyCode\n",
    "\t\t\t\t\t\t\t\t\t\x7d\n",
    "\t\t\t\t\t\t\t\t\x7d\n",
    "\t\t\t\t\t\t\t\tdiscountedUnitPriceSet\x7b\n",
    "\t\t\t\t\t\t\t\t\tpresentmentMoney\x7b\n",
    "\t\t\t\t\t\t\t\t\t\tamount\n",
    "\t\t\t\t\t\t\t\t\t\tcurrencyCode\n",
    "\t\t\t\t\t\t\t\t\t\x7d\n",
    "\t\t\t\t\t\t\t\t\tshopMoney\x7b\n",
    "\t\t\t\t\t\t\t\t\t\tamount\n",
    "\t\t\t\t\t\t\t\t\t\tcurrencyCode\n",
    "\t\t\t\t\t\t\t\t\t\x7d\n",
    "\t\t\t\t\t\t\t\t\x7d\n",
    "\t\t\t\t\t\t\t\x7d\n",
    "\t\t\t\t\t\t\x7d\n",
    "\t\t\t\t\t\x7d\n",
    "\t\t\t\t\tfulfillmentOrders(first:5)\x7b\n",
    "\t\t\t\t\t\tedges \x7b\n",
    "\t\t\t\t\t\t\tnode \x7b\n",
    "\t\t\t\t\t\t\t\tid\n",
    "\t\t\t\t\t\t\t\tstatus\n",
    "\t\t\t\t\t\t\t\tlineItems(first:50)\x7b\n",
    "\t\t\t\t\t\t\t\t\tedges \x7b\n",
    "\t\t\t\t\t\t\t\t\t\tnode \x7b\n",
    "\t\t\t\t\t\t\t\t\t\t\tid\n",
    "\t\t\t\t\t\t\t\t\t\t\tremainingQuantity\n",
    "\t\t\t\t\t\t\t\t\t\t\ttotalQuantity\n",
    "\t\t\t\t\t\t\t\t\t\t\tlineItem\x7b\n",
    "\t\t\t\t\t\t\t\t\t\t\t\tsku\n",
    "\t\t\t\t\t\t\t\t\t\t\t\x7d\t\t\t\t\t\t\t\t\n",
    "\t\t\t\t\t\t\t\t\t\t\x7d\n",
    "\t\t\t\t\t\t\t\t\t\x7d\n",
    "\t\t\t\t\t\t\t\t\x7d\n",
    "\t\t\t\t\t\t\t\x7d\n",
    "\t\t\t\t\t\t\x7d\n",
    "\t\t\t\t\t\x7d\t\t\t\t\t\n",
    "\t\t\t\t\x7d\n",
    "\t\t\t\x7d\n",
    "\t\t\x7d\n",
    "\t"]

def listFormat : String :=
  String.join [
    "\n",
    "\t\t\x7b\n",
    "\t\t\torders(query: \"$query\")\x7b\n",
    "\t\t\t\tedges\x7b\n",
    "\t\t\t\t\tnode\x7b\n",
    "\t\t\t\t\t\t%s\n",
    "\t\t\t\t\t\tlineItems\x7b\n",
    "\t\t\t\t\t\t\tedges\x7b\n",
    "\t\t\t\t\t\t\t\tnode\x7b\n",
    "\t\t\t\t\t\t\t\t\tid\n",
    "\t\t\t\t\t\t\t\t\tsku\n",
    "\t\t\t\t\t\t\t\t\tquantity\n",
    "\t\t\t\t\t\t\t\t\tfulfillableQuantity\n",
    "\t\t\t\t\t\t\t\t\tproduct\x7b\n",
    "\t\t\t\t\t\t\t\t\t\tid\n",
    "\t\t\t\t\t\t\t\t\t\tlegacyResourceId\t\t\t\t\t\t\t\t\t\t\n",
    "\t\t\t\t\t\t\t\t\t\x7d\n",
    "\t\t\t\t\t\t\t\t\tvendor\n",
    "\t\t\t\t\t\t\t\t\ttitle\n",
    "\t\t\t\t\t\t\t\t\tvariantTitle\n",
    "\t\t\t\t\t\t\t\t\tvariant\x7b\n",
    "\t\t\t\t\t\t\t\t\t\tid\n",
    "\t\t\t\t\t\t\t\t\t\tlegacyResourceId\t\n",
    "\t\t\t\t\t\t\t\t\t\tselectedOptions\x7b\n",
    "\t\t\t\t\t\t\t\t\t\t\tname\n",
    "\t\t\t\t\t\t\t\t\t\t\tvalue\n",
    "\t\t\t\t\t\t\t\t\t\t\x7d\t\t\t\t\t\t\t\t\t\n",
    "\t\t\t\t\t\t\t\t\t\x7d\n",
    "\t\t\t\t\t\t\t\t\toriginalTotalSet\x7b\n",
    "\t\t\t\t\t\t\t\t\t\tpresentmentMoney\x7b\n",
    "\t\t\t\t\t\t\t\t\t\t\tamount\n",
    "\t\t\t\t\t\t\t\t\t\t\tcurrencyCode\n",
    "\t\t\t\t\t\t\t\t\t\t\x7d\n",
    "\t\t\t\t\t\t\t\t\t\tshopMoney\x7b\n",
    "\t\t\t\t\t\t\t\t\t\t\tamount\n",
    "\t\t\t\t\t\t\t\t\t\t\tcurrencyCode\n",
    "\t\t\t\t\t\t\t\t\t\t\x7d\n",
    "\t\t\t\t\t\t\t\t\t\x7d\n",
    "\t\t\t\t\t\t\t\t\toriginalUnitPriceSet\x7b\n",
    "\t\t\t\t\t\t\t\t\t\tpresentmentMoney\x7b\n",
    "\t\t\t\t\t\t\t\t\t\t\tamount\n",
    "\t\t\t\t\t\t\t\t\t\t\tcurrencyCode\n",
    "\t\t\t\t\t\t\t\t\t\t\x7d\n",
    "\t\t\t\t\t\t\t\t\t\tshopMoney\x7b\n",
    "\t\t\t\t\t\t\t\t\t\t\tamount\n",
    "\t\t\t\t\t\t\t\t\t\t\tcurrencyCode\n",
    "\t\t\t\t\t\t\t\t\t\t\x7d\n",
    "\t\t\t\t\t\t\t\t\t\x7d\n",
    "\t\t\t\t\t\t\t\t\tdiscountedUnitPriceSet\x7b\n",
    "\t\t\t\t\t\t\t\t\t\tpresentmentMoney\x7b\n",
    "\t\t\t\t\t\t\t\t\t\t\tamount\n",
    "\t\t\t\t\t\t\t\t\t\t\tcurrencyCode\n",
    "\t\t\t\t\t\t\t\t\t\t\x7d\n",
    "\t\t\t\t\t\t\t\t\t\tshopMoney\x7b\n",
    "\t\t\t\t\t\t\t\t\t\t\tamount\n",
    "\t\t\t\t\t\t\t\t\t\t\tcurrencyCode\n",
    "\t\t\t\t\t\t\t\t\t\t\x7d\n",
    "\t\t\t\t\t\t\t\t\t\x7d\n",
    "\t\t\t\t\t\t\t\t\x7d\n",
    "\t\t\t\t\t\t\t\x7d\n",
    "\t\t\t\t\t\t\x7d\n",
    "\t\t\t\t\t\x7d\n",
    "\t\t\t\t\x7d\n",
    "\t\t\t\x7d\n",
    "\t\t\x7d\n",
    "\t"]

def listAllFormat : String :=
  String.join [
    "\n",
    "\t\t\x7b\n",
    "\t\t\torders(query: \"$query\")\x7b\n",
    "\t\t\t\tedges\x7b\n",
    "\t\t\t\t\tnode\x7b\n",
    "\t\t\t\t\t\t%s\n",
    "\t\t\t\t\t\tlineItems\x7b\n",
    "\t\t\t\t\t\t\tedges\x7b\n",
    "\t\t\t\t\t\t\t\tnode\x7b\n",
    "\t\t\t\t\t\t\t\t\tid\n",
    "\t\t\t\t\t\t\t\t\tquantity\n",
    "\t\t\t\t\t\t\t\t\tproduct\x7b\n",
    "\t\t\t\t\t\t\t\t\t\tid\n",
    "\t\t\t\t\t\t\t\t\t\tlegacyResourceId\t\t\t\t\t\t\t\t\t\t\n",
    "\t\t\t\t\t\t\t\t\t\x7d\n",
    "\t\t\t\t\t\t\t\t\tvariant\x7b\n",
    "\t\t\t\t\t\t\t\t\t\tid\n",
    "\t\t\t\t\t\t\t\t\t\tlegacyResourceId\t\n",
    "\t\t\t\t\t\t\t\t\t\tselectedOptions\x7b\n",
    "\t\t\t\t\t\t\t\t\t\t\tname\n",
    "\t\t\t\t\t\t\t\t\t\t\tvalue\n",
    "\t\t\t\t\t\t\t\t\t\t\x7d\t\t\t\t\t\t\t\t\t\n",
    "\t\t\t\t\t\t\t\t\t\x7d\n",
    "\t\t\t\t\t\t\t\t\toriginalUnitPriceSet\x7b\n",
    "\t\t\t\t\t\t\t\t\t\tpresentmentMoney\x7b\n",
    "\t\t\t\t\t\t\t\t\t\t\tamount\n",
    "\t\t\t\t\t\t\t\t\t\t\tcurrencyCode\n",
    "\t\t\t\t\t\t\t\t\t\t\x7d\n",
    "\t\t\t\t\t\t\t\t\t\tshopMoney\x7b\n",
    "\t\t\t\t\t\t\t\t\t\t\tamount\n",
    "\t\t\t\t\t\t\t\t\t\t\tcurrencyCode\n",
    "\t\t\t\t\t\t\t\t\t\t\x7d\n",
    "\t\t\t\t\t\t\t\t\t\x7d\n",
    "\t\t\t\t\t\t\t\t\tdiscountedUnitPriceSet\x7b\n",
    "\t\t\t\t\t\t\t\t\t\tpresentmentMoney\x7b\n",
    "\t\t\t\t\t\t\t\t\t\t\tamount\n",
    "\t\t\t\t\t\t\t\t\t\t\tcurrencyCode\n",
    "\t\t\t\t\t\t\t\t\t\t\x7d\n",
    "\t\t\t\t\t\t\t\t\t\tshopMoney\x7b\n",
    "\t\t\t\t\t\t\t\t\t\t\tamount\n",
    "\t\t\t\t\t\t\t\t\t\t\tcurrencyCode\n",
    "\t\t\t\t\t\t\t\t\t\t\x7d\n",
    "\t\t\t\t\t\t\t\t\t\x7d\n",
    "\t\t\t\t\t\t\t\t\x7d\n",
    "\t\t\t\t\t\t\t\x7d\n",
    "\t\t\t\t\t\t\x7d\n",
    "\t\t\t\t\t\x7d\n",
    "\t\t\t\t\x7d\n",
    "\t\t\t\x7d\n",
    "\t\t\x7d\n",
    "\t"]

def fulfillmentOrdersAtLocationTemplate : String :=
  String.join [
    "\n",
    "\t\x7b\n",
    "\t\torder(id:\"$id\")\x7b\n",
    "\t\t\tfulfillmentOrders(query:\"$query\")\x7b\n",
    "\t\t\t\tedges \x7b\n",
    "\t\t\t\t\tnode \x7b\n",
    "\t\t\t\t\t\tid\n",
    "\t\t\t\t\t\tstatus\n",
    "\t\t\t\t\t\tlineItems\x7b\n",
    "\t\t\t\t\t\t\tedges \x7b\n",
    "\t\t\t\t\t\t\t\tnode \x7b\n",
    "\t\t\t\t\t\t\t\t\tid\n",
    "\t\t\t\t\t\t\t\t\tremainingQuantity\n",
    "\t\t\t\t\t\t\t\t\tlineItem\x7b\n",
    "\t\t\t\t\t\t\t\t\t\tsku\n",
    "\t\t\t\t\t\t\t\t\t\x7d\t\t\t\t\t\t\t\t\n",
    "\t\t\t\t\t\t\t\t\x7d\n",
    "\t\t\t\t\t\t\t\x7d\n",
    "\t\t\t\t\t\t\x7d\n",
    "\t\t\t\t\t\x7d\n",
    "\t\t\t\t\x7d\n",
    "\t\t\t\x7d\n",
    "\t\t\x7d\n",
    "\t\x7d"]

/-- The template of `GetFulfillmentOrdersAtLocation` up to the quoted placeholder `$id`. -/
def locationDocumentHead : String :=
  String.join [
    "\n",
    "\t\x7b\n",
    "\t\torder(id:"]

/-- The template of `GetFulfillmentOrdersAtLocation` between its two quoted placeholders. -/
def locationDocumentMiddle : String :=
  String.join [
    ")\x7b\n",
    "\t\t\tfulfillmentOrders(query:"]

/-- The template of `GetFulfillmentOrdersAtLocation` after the quoted placeholder `$query`. -/
def locationDocumentTail : String :=
  String.join [
    ")\x7b\n",
    "\t\t\t\tedges \x7b\n",
    "\t\t\t\t\tnode \x7b\n",
    "\t\t\t\t\t\tid\n",
    "\t\t\t\t\t\tstatus\n",
    "\t\t\t\t\t\tlineItems\x7b\n",
    "\t\t\t\t\t\t\tedges \x7b\n",
    "\t\t\t\t\t\t\t\tnode \x7b\n",
    "\t\t\t\t\t\t\t\t\tid\n",
    "\t\t\t\t\t\t\t\t\tremainingQuantity\n",
    "\t\t\t\t\t\t\t\t\tlineItem\x7b\n",
    "\t\t\t\t\t\t\t\t\t\tsku\n",
    "\t\t\t\t\t\t\t\t\t\x7d\t\t\t\t\t\t\t\t\n",
    "\t\t\t\t\t\t\t\t\x7d\n",
    "\t\t\t\t\t\t\t\x7d\n",
    "\t\t\t\t\t\t\x7d\n",
    "\t\t\t\t\t\x7d\n",
    "\t\t\t\t\x7d\n",
    "\t\t\t\x7d\n",
    "\t\t\x7d\n",
    "\t\x7d"]

/-! ## Collaborators and runs -/

/-- A call of a collaborator, with the arguments the service passes. -/
inductive Call where
  | QueryString (q : String) (vars : List (String × ID))
  | Mutate (vars : List (String × OrderInput))
  | BulkQuery (q : String)

/-- How an operation ends: it returns a value, or the run time panics. -/
inductive Outcome (α : Type) where
  | returned (value : α)
  | panicked

/-- A run of an operation: the collaborator calls made, in order, and the
outcome. -/
structure Run (α : Type) where
  calls : List Call
  outcome : Outcome α

/-- The collaborators held by `OrderServiceOp.client`. Each function takes the
arguments of the call and the content of the output argument before the call,
and returns the content after the call and the error (`none` for a nil error).
`BulkQuery` is given once for each type of output the service passes. -/
structure Client (D : Decls) where
  QueryString : String → List (String × ID) → Option (OrderQueryResult D) →
    Option (OrderQueryResult D) × Option GoError
  Mutate : mutationOrderUpdate D → List (String × OrderInput) →
    mutationOrderUpdate D × Option GoError
  BulkQueryOrders : String → Slice (Option (Order D)) →
    Slice (Option (Order D)) × Option GoError
  BulkQueryFulfillmentOrders : String → Slice (FulfillmentOrder D) →
    Slice (FulfillmentOrder D) × Option GoError

/-! ## Runs of the service -/

/-- A run that makes no call and returns the value. -/
def Run.pure {α : Type} (value : α) : Run α :=
  { calls := [], outcome := Outcome.returned value }

/-- A run that panics without a call. -/
def Run.panic {α : Type} : Run α :=
  { calls := [], outcome := Outcome.panicked }

/-- A run followed by the run that its value starts: the calls of both, in
order. A panic ends the run. -/
def Run.bind {α β : Type} (r : Run α) (next : α → Run β) : Run β :=
  match r.outcome with
  | Outcome.panicked => { calls := r.calls, outcome := Outcome.panicked }
  | Outcome.returned value =>
    { calls := r.calls ++ (next value).calls, outcome := (next value).outcome }

/-- The call `s.client.gql.QueryString(ctx, q, vars, &out)`: the call is
recorded and the answer of the collaborator is returned. -/
def Client.callQueryString {D : Decls} (c : Client D) (q : String) (vars : List (String × ID))
    (out : Option (OrderQueryResult D)) : Run (Option (OrderQueryResult D) × Option GoError) :=
  { calls := [Call.QueryString q vars], outcome := Outcome.returned (c.QueryString q vars out) }

/-- The call `s.client.gql.Mutate(ctx, &m, vars)`: the call is recorded and the
answer of the collaborator is returned. -/
def Client.callMutate {D : Decls} (c : Client D) (m : mutationOrderUpdate D)
    (vars : List (String × OrderInput)) : Run (mutationOrderUpdate D × Option GoError) :=
  { calls := [Call.Mutate vars], outcome := Outcome.returned (c.Mutate m vars) }

/-- The call `s.client.BulkOperation.BulkQuery(q, &res)` with a slice of order
pointers as output: the call is recorded and the answer of the collaborator is
returned. -/
def Client.callBulkQueryOrders {D : Decls} (c : Client D) (q : String)
    (res : Slice (Option (Order D))) : Run (Slice (Option (Order D)) × Option GoError) :=
  { calls := [Call.BulkQuery q], outcome := Outcome.returned (c.BulkQueryOrders q res) }

/-- The call `s.client.BulkOperation.BulkQuery(q, &res)` with a slice of
fulfillment orders as output: the call is recorded and the answer of the
collaborator is returned. -/
def Client.callBulkQueryFulfillmentOrders {D : Decls} (c : Client D) (q : String)
    (res : Slice (FulfillmentOrder D)) : Run (Slice (FulfillmentOrder D) × Option GoError) :=
  { calls := [Call.BulkQuery q],
    outcome := Outcome.returned (c.BulkQueryFulfillmentOrders q res) }

/-! ## Operations of `OrderServiceOp` -/

/-- The function `OrderServiceOp.Get`. -/
def OrderServiceOp.Get {D : Decls} (c : Client D) (id : ID) :
    Run (Option (OrderQueryResult D) × Option GoError) :=
  let q := Sprintf getFormat [orderBaseQuery]
  let vars := [("id", id)]
  let out : Option (OrderQueryResult D) := none
  (c.callQueryString q vars out).bind fun answer =>
    match answer with
    | (_, some err) => Run.pure (none, some err)
    | (out, none) => Run.pure (out, none)

/-- The function `OrderServiceOp.List`. -/
def OrderServiceOp.List {D : Decls} (c : Client D) (query : String) :
    Run (Slice (Option (Order D)) × Option GoError) :=
  let q := Sprintf listFormat [orderBaseQuery]
  let q := ReplaceAll q "$query" query
  let res : Slice (Option (Order D)) := Slice.elems []
  (c.callBulkQueryOrders q res).bind fun answer =>
    match answer with
    | (_, some err) => Run.pure (Slice.elems [], some err)
    | (res, none) => Run.pure (res, none)

/-- The function `OrderServiceOp.ListAll`. -/
def OrderServiceOp.ListAll {D : Decls} (c : Client D) :
    Run (Slice (Option (Order D)) × Option GoError) :=
  let q := Sprintf listAllFormat [orderBaseQuery]
  let res : Slice (Option (Order D)) := Slice.elems []
  (c.callBulkQueryOrders q res).bind fun answer =>
    match answer with
    | (_, some err) => Run.pure (Slice.elems [], some err)
    | (res, none) => Run.pure (res, none)

/-- The function `OrderServiceOp.Update`. -/
def OrderServiceOp.Update {D : Decls} (c : Client D) (input : OrderInput) : Run (Option GoError) :=
  let m : mutationOrderUpdate D := { OrderUpdateResult := { UserErrors := Slice.nil } }
  let vars := [("input", input)]
  (c.callMutate m vars).bind fun answer =>
    match answer with
    | (_, some err) => Run.pure (some err)
    | (m, none) =>
      if m.OrderUpdateResult.UserErrors.len > 0 then
        Run.pure (some (Errorf (formatSlice D.formatUserErrors m.OrderUpdateResult.UserErrors)))
      else Run.pure none

/-- The function `OrderServiceOp.GetFulfillmentOrdersAtLocation`. -/
def OrderServiceOp.GetFulfillmentOrdersAtLocation {D : Decls} (c : Client D) (orderID locationID : ID) :
    Run (Slice (FulfillmentOrder D) × Option GoError) :=
  let q := fulfillmentOrdersAtLocationTemplate
  match orderID.assertString with
  | none => Run.panic
  | some orderIDString =>
    let q := ReplaceAll q "$id" orderIDString
    match locationID.assertString with
    | none => Run.panic
    | some locationIDString =>
      let q := ReplaceAll q "$query" (Sprintf "assigned_location_id:%s" [locationIDString])
      let res : Slice (FulfillmentOrder D) := Slice.elems []
      (c.callBulkQueryFulfillmentOrders q res).bind fun answer =>
        match answer with
        | (_, some err) => Run.pure (Slice.elems [], some err)
        | (res, none) => Run.pure (res, none)

/-- The variables of a call as they are encoded in the request: an object with
one member for each variable. -/
def Call.variablesJSON : Call → JSON
  | Call.QueryString _ vars => JSON.object (vars.map (fun v => (v.1, v.2.toJSON)))
  | Call.Mutate vars => JSON.object (vars.map (fun v => (v.1, v.2.toJSON)))
  | Call.BulkQuery _ => JSON.object []

/-! ## The response of the node query -/

/-- The member `node` of the data of a query response: JSON `null`, or an
object. The object carries the members selected by `... on Order`; for a node
that is not an Order the selection matches nothing and the object is empty
(`none`). -/
inductive NodeJSON (D : Decls) where
  | null
  | object (orderFields : Option (OrderQueryResult D))

/-- The decoding of the member `node` into the field
`Order *OrderQueryResult` tagged `json:"node"`, as `encoding/json` does it: a
`null` leaves the pointer nil; an object allocates an `OrderQueryResult` and
sets the fields whose members are present, so an empty object gives a pointer
to the zero value. -/
def decodeNode {D : Decls} : NodeJSON D → Option (OrderQueryResult D)
  | NodeJSON.null => none
  | NodeJSON.object none => some (OrderQueryResult.zero D)
  | NodeJSON.object (some o) => some o

/-! ## Unwrapping of the connection form -/

/-- Modelled from the spec: the unwrapping of one fulfillment order node, which
`order.go` does not contain. A connection becomes the sequence of its edge
nodes in edge order, never a nil sequence. -/
def unwrapFulfillmentOrder {D : Decls} (n : FulfillmentOrderNode D) : FulfillmentOrder D :=
  { ID := n.ID, Status := n.Status,
    FulfillmentOrderLineItems :=
      Slice.elems (n.FulfillmentOrderLineItems.Edges.toList.map (fun e => e.LineItem)) }

/-- Modelled from the spec: the Result Unwrapper from `OrderQueryResult` to
`Order`, which `order.go` does not contain (`Get` returns the connection form
as decoded). Every connection becomes the sequence of its edge nodes in edge
order, a missing connection becomes an empty sequence, and the fields of
`OrderBase` are kept. -/
def unwrap {D : Decls} (r : OrderQueryResult D) : Order D :=
  { toOrderBase := r.toOrderBase,
    LineItems := Slice.elems (r.LineItems.Edges.toList.map (fun e => e.LineItem)),
    FulfillmentOrders :=
      Slice.elems (r.FulfillmentOrders.Edges.toList.map
        (fun e => unwrapFulfillmentOrder e.FulfillmentOrder)) }

/-! ## Instances used in the examples -/

/-- A user error with a field path and a message. -/
structure SampleUserErrors where
  Field : List String
  Message : String

/-- An instance of the outside declarations: user errors are
`SampleUserErrors`, rendered as `%+v` renders a struct; the other types carry
no data. -/
def sampleDecls : Decls :=
  { DateTime := Unit, Customer := Unit, MoneyBag := Unit, MailingAddress := Unit,
    SelectedOption := Unit, UserErrors := SampleUserErrors, Float := Unit,
    zeroDateTime := (), zeroCustomer := (), zeroMoneyBag := (), zeroMailingAddress := (),
    formatUserErrors := fun u =>
      ⟨"\x7bField:[".data ++ joinWithSpace u.Field ++ "] Message:".data ++ u.Message.data ++
        "\x7d".data⟩ }

/-- An error reported by a collaborator. -/
def sampleError : GoError := { dynType := "*url.Error", text := "connection refused" }

/-- A client whose collaborators all fail with `sampleError`; the bulk runner
has written a record into the output before failing. -/
def failingClient : Client sampleDecls :=
  { QueryString := fun _ _ _ => (some (OrderQueryResult.zero sampleDecls), some sampleError),
    Mutate := fun m _ => (m, some sampleError),
    BulkQueryOrders := fun _ _ => (Slice.elems [none], some sampleError),
    BulkQueryFulfillmentOrders := fun _ _ =>
      (Slice.elems [{ ID := Dyn.string "gid://shopify/FulfillmentOrder/1", Status := "OPEN",
                      FulfillmentOrderLineItems := Slice.nil }], some sampleError) }

/-- A mutation response with two user errors. -/
def twoUserErrors : Slice SampleUserErrors :=
  Slice.elems [{ Field := ["input", "tags"], Message := "Tags is invalid" },
               { Field := ["input", "note"], Message := "Note is too long" }]

/-- A client whose calls all succeed. The mutation reports the given user
errors, the node query answers with the given node, the bulk queries return
nothing. -/
def answeringClient (userErrors : Slice SampleUserErrors) (node : NodeJSON sampleDecls) :
    Client sampleDecls :=
  { QueryString := fun _ _ _ => (decodeNode node, none),
    Mutate := fun _ _ => ({ OrderUpdateResult := { UserErrors := userErrors } }, none),
    BulkQueryOrders := fun _ out => (out, none),
    BulkQueryFulfillmentOrders := fun _ out => (out, none) }

/-- An input with an identifier and a tag set that is present and empty. -/
def emptyTagsInput : OrderInput :=
  { ID := Dyn.string "gid://shopify/Order/1", Tags := Slice.elems [], Note := "" }

/-- The same input with the tag set absent. -/
def absentTagsInput : OrderInput :=
  { ID := Dyn.string "gid://shopify/Order/1", Tags := Slice.nil, Note := "" }

/-- An input with an identifier, a present and empty tag set, and a note. -/
def emptyTagsWithNoteInput : OrderInput :=
  { ID := Dyn.string "gid://shopify/Order/2", Tags := Slice.elems [], Note := "gift" }

/-- A line item with the given identifier, SKU and quantity. -/
def sampleLineItem (id sku : String) (quantity : Int) : LineItem sampleDecls :=
  { ID := Dyn.string id, SKU := sku, Quantity := quantity, FulfillableQuantity := quantity,
    Vendor := "vendor", Title := "title", VariantTitle := "variant",
    Product := { ID := Dyn.string "gid://shopify/Product/1", LegacyResourceID := "1" },
    Variant := { ID := Dyn.string "gid://shopify/ProductVariant/1", LegacyResourceID := "1",
                 SelectedOptions := Slice.nil },
    OriginalTotalSet := (), OriginalUnitPriceSet := (), DiscountedUnitPriceSet := () }

/-- A line item of a fulfillment order with the given identifier and quantities. -/
def sampleFulfillmentOrderLineItem (id : String) (remaining total : Int) :
    FulfillmentOrderLineItem sampleDecls :=
  { ID := Dyn.string id, RemainingQuantity := remaining, TotalQuantity := total,
    LineItem := sampleLineItem "" "SKU-1" 0 }

/-- An order in connection form with three line items and two fulfillment
orders of two line items each. -/
def sampleOrderQueryResult : OrderQueryResult sampleDecls :=
  { toOrderBase := { OrderBase.zero sampleDecls with
      ID := Dyn.string "gid://shopify/Order/1", Name := "#1001",
      Tags := Slice.elems ["vip", "vip"] },
    LineItems := { Edges := Slice.elems [
       { LineItem := sampleLineItem "gid://shopify/LineItem/1" "SKU-1" 1 },
       { LineItem := sampleLineItem "gid://shopify/LineItem/2" "SKU-2" 2 },
       { LineItem := sampleLineItem "gid://shopify/LineItem/3" "SKU-3" 3 }] },
    FulfillmentOrders := { Edges := Slice.elems [
       { FulfillmentOrder :=
          { ID := Dyn.string "gid://shopify/FulfillmentOrder/1", Status := "OPEN",
            FulfillmentOrderLineItems := { Edges := Slice.elems [
               { LineItem := sampleFulfillmentOrderLineItem "gid://shopify/FulfillmentOrderLineItem/1" 1 1 },
               { LineItem := sampleFulfillmentOrderLineItem "gid://shopify/FulfillmentOrderLineItem/2" 0 2 }] } } },
       { FulfillmentOrder :=
          { ID := Dyn.string "gid://shopify/FulfillmentOrder/2", Status := "CLOSED",
            FulfillmentOrderLineItems := { Edges := Slice.elems [
               { LineItem := sampleFulfillmentOrderLineItem "gid://shopify/FulfillmentOrderLineItem/3" 2 2 },
               { LineItem := sampleFulfillmentOrderLineItem "gid://shopify/FulfillmentOrderLineItem/4" 0 3 }] } } }] } }

/-! ## Theorems -/

/-! ### Replacement -/

/-- Skipping the rest of a matched occurrence. -/
theorem replaceFrom_skip (old new : List Char) (u s : List Char) :
    replaceFrom old new u.length (u ++ s) = replaceFrom old new 0 s := by
  induction u with
  | nil => rfl
  | cons c u ih => simpa [replaceFrom] using ih

/-- An occurrence at the head of the text is replaced. -/
theorem replaceFrom_match (old new s : List Char) (hold : old ≠ []) :
    replaceFrom old new 0 (old ++ s) = new ++ replaceFrom old new 0 s := by
  cases old with
  | nil => exact absurd rfl hold
  | cons a t =>
    have hpre : (a :: t).isPrefixOf (a :: (t ++ s)) = true := by
      rw [List.isPrefixOf_iff_prefix]
      exact List.prefix_append (a :: t) s
    have hstep : replaceFrom (a :: t) new 0 (a :: (t ++ s))
        = new ++ replaceFrom (a :: t) new ((a :: t).length - 1) (t ++ s) := by
      rw [replaceFrom, if_pos hpre]
    have hlen : (a :: t).length - 1 = t.length := by simp
    rw [List.cons_append, hstep, hlen, replaceFrom_skip]

/-- Text without the first character of `old` is copied. -/
theorem replaceFrom_copy (a : Char) (t new u s : List Char) (hu : a ∉ u) :
    replaceFrom (a :: t) new 0 (u ++ s) = u ++ replaceFrom (a :: t) new 0 s := by
  induction u with
  | nil => rfl
  | cons c u ih =>
    have hca : a ≠ c := fun h => hu (h ▸ List.mem_cons_self _ _)
    have hpre : (a :: t).isPrefixOf (c :: (u ++ s)) = false := by
      simp [List.isPrefixOf, hca]
    have hu2 : a ∉ u := fun h => hu (List.mem_cons_of_mem _ h)
    rw [List.cons_append, replaceFrom, hpre, ih hu2]
    simp

/-- Text without the first character of `old` is left as it is. -/
theorem replaceFrom_none (a : Char) (t new u : List Char) (hu : a ∉ u) :
    replaceFrom (a :: t) new 0 u = u := by
  have h := replaceFrom_copy a t new u [] hu
  simpa [replaceFrom] using h

/-- A prefix of `u ++ q :: v` without the character `q` lies within `u`. -/
theorem length_le_of_prefix_of_not_mem (k u v : List Char) (q : Char) (hq : q ∉ k)
    (hpre : k <+: u ++ q :: v) : k.length ≤ u.length := by
  by_contra hlt
  have hlen : (u ++ [q]).length ≤ k.length := by simp; omega
  have hu : u ++ [q] <+: u ++ q :: v := by
    have : u ++ q :: v = (u ++ [q]) ++ v := by simp
    rw [this]; exact List.prefix_append _ _
  have hk : u ++ [q] <+: k := List.prefix_of_prefix_length_le hu hpre hlen
  exact hq (hk.subset (by simp))

/-- Text that does not contain `old` and is followed by a character not in
`old` is copied. -/
theorem replaceFrom_copy_of_not_infix (old new u v : List Char) (q : Char) (hq : q ∉ old)
    (hu : ¬ old <:+: u) :
    replaceFrom old new 0 (u ++ q :: v) = u ++ replaceFrom old new 0 (q :: v) := by
  induction u with
  | nil => rfl
  | cons c u ih =>
    have hpre : old.isPrefixOf (c :: (u ++ q :: v)) = false := by
      apply Bool.eq_false_iff.mpr
      intro h
      rw [List.isPrefixOf_iff_prefix] at h
      have hle : old.length ≤ (c :: u).length :=
        length_le_of_prefix_of_not_mem old (c :: u) v q hq h
      have hcu : c :: u <+: c :: (u ++ q :: v) := by
        rw [← List.cons_append]; exact List.prefix_append _ _
      exact hu (List.prefix_of_prefix_length_le h hcu hle).isInfix
    have hu2 : ¬ old <:+: u := fun h => hu (List.infix_cons h)
    rw [List.cons_append, replaceFrom, hpre, ih hu2]
    simp

/-! ### Occurrences -/

/-- An occurrence at a position of the text is an occurrence in the text. -/
theorem infix_of_prefix_drop (k t : List Char) (s : Nat) (h : k <+: t.drop s) : k <:+: t :=
  h.isInfix.trans (List.drop_suffix s t).isInfix

/-- An occurrence of `k` in `u ++ q :: v`, where `q` is not a character of `k`,
lies before `q` or after it. -/
theorem position_of_prefix_drop (k u v : List Char) (q : Char) (hq : q ∉ k) (hk : k ≠ []) :
    ∀ s, k <+: (u ++ q :: v).drop s → s + k.length ≤ u.length ∨ u.length + 1 ≤ s := by
  induction u with
  | nil =>
    intro s h
    cases s with
    | zero =>
      have := length_le_of_prefix_of_not_mem k [] v q hq (by simpa using h)
      have hk0 : k.length ≠ 0 := fun h0 => hk (List.length_eq_zero.mp h0)
      simp at this
      exact absurd this hk
    | succ s => right; simp
  | cons c u ih =>
    intro s h
    cases s with
    | zero =>
      left
      have := length_le_of_prefix_of_not_mem k (c :: u) v q hq (by simpa using h)
      simpa using this
    | succ s =>
      have h2 : k <+: (u ++ q :: v).drop s := by simpa using h
      rcases ih s h2 with h3 | h3
      · left; simp; omega
      · right; simp; omega


/-- Dropping past the separator of `u ++ q :: v`. -/
theorem drop_append_cons (u v : List Char) (q : Char) (j : Nat) :
    (u ++ q :: v).drop (u.length + 1 + j) = v.drop j := by
  have h : u ++ q :: v = (u ++ [q]) ++ v := by simp
  have hlen : u.length + 1 + j = (u ++ [q]).length + j := by simp
  rw [h, hlen, List.drop_append]

/-- An occurrence that ends within the first part lies in the first part. -/
theorem prefix_drop_left (k u rest : List Char) (s : Nat) (h : k <+: (u ++ rest).drop s)
    (hle : s + k.length ≤ u.length) : k <+: u.drop s := by
  have hs : s ≤ u.length := by omega
  rw [List.drop_append_of_le_length hs] at h
  exact List.prefix_of_prefix_length_le h (List.prefix_append _ _) (by simp; omega)

/-- In `pre ++ q :: (p ++ q :: post)`, where `k` has no character `q` and
occurs neither in `pre` nor in `post`, every occurrence of `k` lies within
`p`. -/
theorem occurrence_within (k pre p post : List Char) (q : Char) (hq : q ∉ k) (hk : k ≠ [])
    (hpre : ¬ k <:+: pre) (hpost : ¬ k <:+: post) (s : Nat)
    (h : k <+: (pre ++ q :: (p ++ q :: post)).drop s) :
    pre.length + 1 ≤ s ∧ s + k.length ≤ pre.length + 1 + p.length := by
  rcases position_of_prefix_drop k pre (p ++ q :: post) q hq hk s h with h1 | h1
  · exact absurd (infix_of_prefix_drop k pre s (prefix_drop_left k pre _ s h h1)) hpre
  · refine ⟨h1, ?_⟩
    obtain ⟨j, rfl⟩ : ∃ j, s = pre.length + 1 + j := ⟨s - (pre.length + 1), by omega⟩
    rw [drop_append_cons] at h
    rcases position_of_prefix_drop k p post q hq hk j h with h2 | h2
    · omega
    · obtain ⟨i, rfl⟩ : ∃ i, j = p.length + 1 + i := ⟨j - (p.length + 1), by omega⟩
      rw [drop_append_cons] at h
      exact absurd (infix_of_prefix_drop k post i h) hpost

/-- An occurrence of `k` in an occurrence of `p` is an occurrence of `k` in the
text. -/
theorem prefix_drop_add (k p t : List Char) (i s : Nat) (hp : p <+: t.drop i)
    (hk : k <+: p.drop s) : k <+: t.drop (i + s) := by
  obtain ⟨w, hw⟩ := hp
  rw [← List.drop_drop, ← hw, List.drop_append_eq_append_drop]
  exact hk.trans (List.prefix_append _ _)

/-- In `pre ++ q :: (k ++ loc ++ q :: post)`, where `k` has no character `q`
and occurs neither in `pre` nor in `post`, the text `k ++ loc` occurs at the
position after the first `q` only. -/
theorem occurrence_unique (k loc pre post : List Char) (q : Char) (hq : q ∉ k) (hk : k ≠ [])
    (hpre : ¬ k <:+: pre) (hpost : ¬ k <:+: post) (i : Nat)
    (h : k ++ loc <+: (pre ++ q :: (k ++ loc ++ q :: post)).drop i) :
    i = pre.length + 1 := by
  have hwithin := occurrence_within k pre (k ++ loc) post q hq hk hpre hpost
  have h0 : k <+: (k ++ loc).drop 0 := List.prefix_append _ _
  have hlow := (hwithin (i + 0) (prefix_drop_add k _ _ i 0 h h0)).1
  by_contra hne
  have hgt : pre.length + 1 < i := by omega
  have hclimb : ∀ n : Nat, ∃ s, n ≤ s ∧ k <+: (k ++ loc).drop s := by
    intro n
    induction n with
    | zero => exact ⟨0, Nat.le_refl 0, h0⟩
    | succ n ih =>
      obtain ⟨s, hs, hks⟩ := ih
      have hin := prefix_drop_add k _ _ i s h hks
      have hup := (hwithin (i + s) hin).2
      obtain ⟨j, hj⟩ : ∃ j, i + s = pre.length + 1 + j := ⟨i + s - (pre.length + 1), by omega⟩
      rw [hj, drop_append_cons] at hin
      exact ⟨j, by omega, prefix_drop_left k (k ++ loc) _ j hin (by omega)⟩
  obtain ⟨s, hs, hks⟩ := hclimb ((k ++ loc).length + 1)
  rw [List.drop_eq_nil_of_le (by omega)] at hks
  exact hk (List.prefix_nil.mp hks)

/-- A text without a position at which `p` occurs has no occurrences. -/
theorem occurrences_eq_zero (p : List Char) :
    ∀ v : List Char, (∀ i, i < v.length → ¬ p <+: v.drop i) → occurrences p v = 0 := by
  intro v
  induction v with
  | nil => intro _; rfl
  | cons c v ih =>
    intro h
    have h0 : p.isPrefixOf (c :: v) = false := by
      apply Bool.eq_false_iff.mpr
      intro hp
      rw [List.isPrefixOf_iff_prefix] at hp
      exact h 0 (by simp) (by simpa using hp)
    have hrest : occurrences p v = 0 :=
      ih (fun i hi hp => h (i + 1) (by simp; omega) (by simpa using hp))
    simp [occurrences, h0, hrest]

/-- A first part without a position at which `p` occurs adds no occurrences. -/
theorem occurrences_append (p : List Char) (v : List Char) :
    ∀ u : List Char, (∀ i, i < u.length → ¬ p <+: (u ++ v).drop i) →
      occurrences p (u ++ v) = occurrences p v := by
  intro u
  induction u with
  | nil => intro _; rfl
  | cons c u ih =>
    intro h
    have h0 : p.isPrefixOf (c :: (u ++ v)) = false := by
      apply Bool.eq_false_iff.mpr
      intro hp
      rw [List.isPrefixOf_iff_prefix] at hp
      exact h 0 (by simp) (by simpa using hp)
    have hrest : occurrences p (u ++ v) = occurrences p v :=
      ih (fun i hi hp => h (i + 1) (by simp; omega) (by simpa using hp))
    simp [occurrences, h0, hrest]

/-- In `pre ++ q :: (k ++ loc ++ q :: post)`, where `k` has no character `q`
and occurs neither in `pre` nor in `post`, the text `k ++ loc` occurs exactly
once. -/
theorem occurrences_eq_one (k loc pre post : List Char) (q : Char) (hq : q ∉ k) (hk : k ≠ [])
    (hpre : ¬ k <:+: pre) (hpost : ¬ k <:+: post) :
    occurrences (k ++ loc) (pre ++ q :: (k ++ loc ++ q :: post)) = 1 := by
  have huniq := occurrence_unique k loc pre post q hq hk hpre hpost
  have hsplit : pre ++ q :: (k ++ loc ++ q :: post) = (pre ++ [q]) ++ (k ++ loc ++ q :: post) := by
    simp
  have hfront : occurrences (k ++ loc) ((pre ++ [q]) ++ (k ++ loc ++ q :: post))
      = occurrences (k ++ loc) (k ++ loc ++ q :: post) := by
    apply occurrences_append
    intro i hi hp
    rw [← hsplit] at hp
    have := huniq i hp
    simp at hi
    omega
  rw [hsplit, hfront]
  cases k with
  | nil => exact absurd rfl hk
  | cons a k =>
    have hhead : (a :: k ++ loc).isPrefixOf (a :: (k ++ loc ++ q :: post)) = true := by
      rw [List.isPrefixOf_iff_prefix]
      exact ⟨q :: post, by simp⟩
    have hrest : occurrences (a :: k ++ loc) (k ++ loc ++ q :: post) = 0 := by
      apply occurrences_eq_zero
      intro i _ hp
      have hp2 : a :: k ++ loc <+: (pre ++ q :: (a :: k ++ loc ++ q :: post)).drop
          (pre.length + 1 + (i + 1)) := by
        rw [drop_append_cons]
        simpa using hp
      have := huniq _ hp2
      omega
    have hcons : a :: k ++ loc ++ q :: post = a :: (k ++ loc ++ q :: post) := by simp
    rw [hcons, occurrences, hhead, hrest]
    rfl


/-- The two replacements of `GetFulfillmentOrdersAtLocation` on a template with
one quoted `$id` and one quoted `$query`, where the other parts of the template
have no `$` and the order identifier does not contain `$query`: each
placeholder is replaced by its value. -/
theorem replace_both_placeholders (H M T o new : List Char) (hH : '$' ∉ H) (hM : '$' ∉ M)
    (hT : '$' ∉ T) (ho : ¬ ['$', 'q', 'u', 'e', 'r', 'y'] <:+: o) :
    replaceFrom ['$', 'q', 'u', 'e', 'r', 'y'] new 0
      (replaceFrom ['$', 'i', 'd'] o 0
        (H ++ '"' :: (['$', 'i', 'd'] ++ '"' :: (M ++ '"' ::
          (['$', 'q', 'u', 'e', 'r', 'y'] ++ '"' :: T)))))
      = H ++ '"' :: (o ++ '"' :: (M ++ '"' :: (new ++ '"' :: T))) := by
  have hHq : '$' ∉ H ++ ['"'] := by simp [hH]
  have hMq : '$' ∉ '"' :: (M ++ ['"']) := by simp [hM]
  have hTq : '$' ∉ '"' :: T := by simp [hT]
  have hrest : '$' ∉ 'q' :: 'u' :: 'e' :: 'r' :: 'y' :: '"' :: T := by simp [hT]
  -- the first replacement
  have hkeep : replaceFrom ['$', 'i', 'd'] o 0
      ('$' :: 'q' :: 'u' :: 'e' :: 'r' :: 'y' :: '"' :: T)
      = '$' :: 'q' :: 'u' :: 'e' :: 'r' :: 'y' :: '"' :: T := by
    have hno : ['$', 'i', 'd'].isPrefixOf ('$' :: 'q' :: 'u' :: 'e' :: 'r' :: 'y' :: '"' :: T)
        = false := by simp [List.isPrefixOf]
    rw [replaceFrom, hno, replaceFrom_none '$' ['i', 'd'] o _ hrest]
    simp
  have hfirst : replaceFrom ['$', 'i', 'd'] o 0
      (H ++ '"' :: (['$', 'i', 'd'] ++ '"' :: (M ++ '"' ::
        (['$', 'q', 'u', 'e', 'r', 'y'] ++ '"' :: T))))
      = (H ++ ['"']) ++ (o ++ '"' :: (('"' :: (M ++ ['"'])) ++
          (['$', 'q', 'u', 'e', 'r', 'y'] ++ '"' :: T)).tail) := by
    have h1 : H ++ '"' :: (['$', 'i', 'd'] ++ '"' :: (M ++ '"' ::
        (['$', 'q', 'u', 'e', 'r', 'y'] ++ '"' :: T)))
        = (H ++ ['"']) ++ (['$', 'i', 'd'] ++ (('"' :: (M ++ ['"'])) ++
            ('$' :: 'q' :: 'u' :: 'e' :: 'r' :: 'y' :: '"' :: T))) := by simp
    rw [h1, replaceFrom_copy '$' ['i', 'd'] o _ _ hHq,
      replaceFrom_match ['$', 'i', 'd'] o _ (by simp),
      replaceFrom_copy '$' ['i', 'd'] o _ _ hMq, hkeep]
    simp
  rw [hfirst]
  -- the second replacement
  have h2 : (H ++ ['"']) ++ (o ++ '"' :: (('"' :: (M ++ ['"'])) ++
      (['$', 'q', 'u', 'e', 'r', 'y'] ++ '"' :: T)).tail)
      = (H ++ ['"']) ++ (o ++ '"' :: ((M ++ ['"']) ++
          (['$', 'q', 'u', 'e', 'r', 'y'] ++ ('"' :: T)))) := by simp
  have hquote : '"' ∉ ['$', 'q', 'u', 'e', 'r', 'y'] := by decide
  have hsecond : replaceFrom ['$', 'q', 'u', 'e', 'r', 'y'] new 0
      ('"' :: ((M ++ ['"']) ++ (['$', 'q', 'u', 'e', 'r', 'y'] ++ ('"' :: T))))
      = '"' :: ((M ++ ['"']) ++ (new ++ '"' :: T)) := by
    have h3 : '"' :: ((M ++ ['"']) ++ (['$', 'q', 'u', 'e', 'r', 'y'] ++ ('"' :: T)))
        = ('"' :: (M ++ ['"'])) ++ (['$', 'q', 'u', 'e', 'r', 'y'] ++ ('"' :: T)) := by simp
    rw [h3, replaceFrom_copy '$' ['q', 'u', 'e', 'r', 'y'] new _ _ hMq,
      replaceFrom_match ['$', 'q', 'u', 'e', 'r', 'y'] new _ (by simp),
      replaceFrom_none '$' ['q', 'u', 'e', 'r', 'y'] new _ hTq]
    simp
  rw [h2, replaceFrom_copy '$' ['q', 'u', 'e', 'r', 'y'] new _ _ hHq,
    replaceFrom_copy_of_not_infix ['$', 'q', 'u', 'e', 'r', 'y'] new o _ '"' hquote ho, hsecond]
  simp

/-- An occurrence in a text is an occurrence at one of its positions. -/
theorem prefix_drop_of_infix (k t : List Char) (h : k <:+: t) : ∃ s, k <+: t.drop s := by
  obtain ⟨a, b, hab⟩ := h
  refine ⟨a.length, b, ?_⟩
  rw [← hab, List.append_assoc, List.drop_left]

/-- A text without the character `q` that occurs in `a ++ q :: (o ++ q :: b)`
occurs in `a`, in `o` or in `b`. -/
theorem not_infix_of_parts (k a o b : List Char) (q : Char) (hq : q ∉ k) (hk : k ≠ [])
    (ha : ¬ k <:+: a) (ho : ¬ k <:+: o) (hb : ¬ k <:+: b) :
    ¬ k <:+: a ++ q :: (o ++ q :: b) := by
  intro h
  obtain ⟨s, hs⟩ := prefix_drop_of_infix k _ h
  obtain ⟨hlow, hup⟩ := occurrence_within k a o b q hq hk ha hb s hs
  obtain ⟨j, rfl⟩ : ∃ j, s = a.length + 1 + j := ⟨s - (a.length + 1), by omega⟩
  rw [drop_append_cons] at hs
  exact ho (infix_of_prefix_drop k o j (prefix_drop_left k o _ j hs (by omega)))


/-! ### The runs of the operations -/

/-- The run of `Get`: one `QueryString` call with the document and the variable
`id`, and a result computed from the answer to that call. -/
theorem get_run {D : Decls} (c : Client D) (id : ID) :
    OrderServiceOp.Get c id =
      { calls := [Call.QueryString (Sprintf getFormat [orderBaseQuery]) [("id", id)]],
        outcome := Outcome.returned
          (match c.QueryString (Sprintf getFormat [orderBaseQuery]) [("id", id)] none with
            | (_, some err) => (none, some err)
            | (out, none) => (out, none)) } := by
  simp only [OrderServiceOp.Get, Run.bind, Client.callQueryString]
  generalize c.QueryString (Sprintf getFormat [orderBaseQuery]) [("id", id)] none = answer
  rcases answer with ⟨out, _ | err⟩ <;> rfl

/-- The run of `List`: one `BulkQuery` call with the document, and a result
computed from the answer to that call. -/
theorem list_run {D : Decls} (c : Client D) (query : String) :
    OrderServiceOp.List c query =
      { calls := [Call.BulkQuery (ReplaceAll (Sprintf listFormat [orderBaseQuery]) "$query" query)],
        outcome := Outcome.returned
          (match c.BulkQueryOrders
              (ReplaceAll (Sprintf listFormat [orderBaseQuery]) "$query" query) (Slice.elems []) with
            | (_, some err) => (Slice.elems [], some err)
            | (res, none) => (res, none)) } := by
  simp only [OrderServiceOp.List, Run.bind, Client.callBulkQueryOrders]
  generalize c.BulkQueryOrders
    (ReplaceAll (Sprintf listFormat [orderBaseQuery]) "$query" query) (Slice.elems []) = answer
  rcases answer with ⟨res, _ | err⟩ <;> rfl

/-- The run of `ListAll`: one `BulkQuery` call with the document, and a result
computed from the answer to that call. -/
theorem listAll_run {D : Decls} (c : Client D) :
    OrderServiceOp.ListAll c =
      { calls := [Call.BulkQuery (Sprintf listAllFormat [orderBaseQuery])],
        outcome := Outcome.returned
          (match c.BulkQueryOrders (Sprintf listAllFormat [orderBaseQuery]) (Slice.elems []) with
            | (_, some err) => (Slice.elems [], some err)
            | (res, none) => (res, none)) } := by
  simp only [OrderServiceOp.ListAll, Run.bind, Client.callBulkQueryOrders]
  generalize c.BulkQueryOrders (Sprintf listAllFormat [orderBaseQuery]) (Slice.elems []) = answer
  rcases answer with ⟨res, _ | err⟩ <;> rfl

/-- The run of `Update`: one `Mutate` call with the input as the variable
`input`, and a result computed from the answer to that call. -/
theorem update_run {D : Decls} (c : Client D) (input : OrderInput) :
    OrderServiceOp.Update c input =
      { calls := [Call.Mutate [("input", input)]],
        outcome := Outcome.returned
          (match c.Mutate { OrderUpdateResult := { UserErrors := Slice.nil } }
              [("input", input)] with
            | (_, some err) => some err
            | (m, none) =>
              if m.OrderUpdateResult.UserErrors.len > 0 then
                some (Errorf (formatSlice D.formatUserErrors m.OrderUpdateResult.UserErrors))
              else none) } := by
  simp only [OrderServiceOp.Update, Run.bind, Client.callMutate]
  generalize c.Mutate { OrderUpdateResult := { UserErrors := Slice.nil } }
    [("input", input)] = answer
  rcases answer with ⟨m, _ | err⟩
  · by_cases hlen : m.OrderUpdateResult.UserErrors.len > 0 <;> simp [hlen, Run.pure]
  · rfl

/-- The run of `GetFulfillmentOrdersAtLocation` for identifiers that hold
strings: one `BulkQuery` call with the template after both replacements, and a
result computed from the answer to that call. -/
theorem location_run {D : Decls} (c : Client D) (orderID locationID : String) :
    OrderServiceOp.GetFulfillmentOrdersAtLocation c (Dyn.string orderID) (Dyn.string locationID) =
      { calls := [Call.BulkQuery
          (ReplaceAll (ReplaceAll fulfillmentOrdersAtLocationTemplate "$id" orderID) "$query"
            (Sprintf "assigned_location_id:%s" [locationID]))],
        outcome := Outcome.returned
          (match c.BulkQueryFulfillmentOrders
              (ReplaceAll (ReplaceAll fulfillmentOrdersAtLocationTemplate "$id" orderID) "$query"
                (Sprintf "assigned_location_id:%s" [locationID])) (Slice.elems []) with
            | (_, some err) => (Slice.elems [], some err)
            | (res, none) => (res, none)) } := by
  simp only [OrderServiceOp.GetFulfillmentOrdersAtLocation, Dyn.assertString, Run.bind,
    Client.callBulkQueryFulfillmentOrders]
  generalize c.BulkQueryFulfillmentOrders
    (ReplaceAll (ReplaceAll fulfillmentOrdersAtLocationTemplate "$id" orderID) "$query"
      (Sprintf "assigned_location_id:%s" [locationID])) (Slice.elems []) = answer
  rcases answer with ⟨res, _ | err⟩ <;> rfl

/-- The run of `GetFulfillmentOrdersAtLocation` when an identifier does not
hold a string: a panic without a call. -/
theorem location_run_panic {D : Decls} (c : Client D) (orderID locationID : ID)
    (h : (orderID.isString && locationID.isString) = false) :
    OrderServiceOp.GetFulfillmentOrdersAtLocation c orderID locationID =
      { calls := [], outcome := Outcome.panicked } := by
  cases orderID <;> cases locationID <;>
    first
      | rfl
      | simp [Dyn.isString] at h

/-- C10: `GetFulfillmentOrdersAtLocation` makes its single `BulkQuery` call and
returns when both identifiers hold a string; when either holds anything else
(the nil interface included) it panics without having called `BulkQuery`. -/
theorem getFulfillmentOrdersAtLocation_safe_iff_strings {D : Decls} (c : Client D)
    (orderID locationID : ID) :
    if (orderID.isString && locationID.isString) = true then
      (∃ q, (OrderServiceOp.GetFulfillmentOrdersAtLocation c orderID locationID).calls
          = [Call.BulkQuery q]) ∧
      (∃ v, (OrderServiceOp.GetFulfillmentOrdersAtLocation c orderID locationID).outcome
          = Outcome.returned v)
    else
      (OrderServiceOp.GetFulfillmentOrdersAtLocation c orderID locationID).calls = [] ∧
      (OrderServiceOp.GetFulfillmentOrdersAtLocation c orderID locationID).outcome
          = Outcome.panicked := by
  by_cases h : (orderID.isString && locationID.isString) = true
  · rw [if_pos h]
    cases orderID <;> cases locationID <;> simp [Dyn.isString] at h
    rw [location_run]
    exact ⟨⟨_, rfl⟩, ⟨_, rfl⟩⟩
  · rw [if_neg h, location_run_panic c orderID locationID (by simpa using h)]
    exact ⟨rfl, rfl⟩

/-- C3 (counterexample): with an integer as order identifier,
`GetFulfillmentOrdersAtLocation` does not make one `BulkQuery` call: it makes
no call and panics. -/
theorem getFulfillmentOrdersAtLocation_int_makes_no_call :
    (¬ ∃ q, (OrderServiceOp.GetFulfillmentOrdersAtLocation
        (answeringClient Slice.nil NodeJSON.null) (Dyn.int 5) (Dyn.string "1")).calls
          = [Call.BulkQuery q]) ∧
    (OrderServiceOp.GetFulfillmentOrdersAtLocation
        (answeringClient Slice.nil NodeJSON.null) (Dyn.int 5) (Dyn.string "1")).calls = [] := by
  constructor
  · rintro ⟨q, hq⟩
    rw [location_run_panic (answeringClient Slice.nil NodeJSON.null) (Dyn.int 5)
      (Dyn.string "1") rfl] at hq
    cases hq
  · rfl

/-- C3 (amended): every operation makes exactly one collaborator call and
nothing else, and computes its result from the answer to that call alone:
`Get` one `QueryString` with the document and the variable `id`; `List` (for
every filter string) and `ListAll` one `BulkQuery` with the document, answered
by the bulk runner; `Update` one `Mutate` with the variable `input`;
`GetFulfillmentOrdersAtLocation` one `BulkQuery` when both identifiers hold a
string. When an identifier holds a value of another dynamic type,
`GetFulfillmentOrdersAtLocation` makes no call and panics. -/
theorem one_collaborator_call {D : Decls} (c : Client D) :
    (∀ id : ID,
      (OrderServiceOp.Get c id).calls
        = [Call.QueryString (Sprintf getFormat [orderBaseQuery]) [("id", id)]] ∧
      (OrderServiceOp.Get c id).outcome = Outcome.returned
        (match c.QueryString (Sprintf getFormat [orderBaseQuery]) [("id", id)] none with
          | (_, some err) => (none, some err)
          | (out, none) => (out, none))) ∧
    (∀ query : String,
      (OrderServiceOp.List c query).calls
        = [Call.BulkQuery (ReplaceAll (Sprintf listFormat [orderBaseQuery]) "$query" query)] ∧
      (OrderServiceOp.List c query).outcome = Outcome.returned
        (match c.BulkQueryOrders
            (ReplaceAll (Sprintf listFormat [orderBaseQuery]) "$query" query) (Slice.elems []) with
          | (_, some err) => (Slice.elems [], some err)
          | (res, none) => (res, none))) ∧
    ((OrderServiceOp.ListAll c).calls
        = [Call.BulkQuery (Sprintf listAllFormat [orderBaseQuery])] ∧
      (OrderServiceOp.ListAll c).outcome = Outcome.returned
        (match c.BulkQueryOrders (Sprintf listAllFormat [orderBaseQuery]) (Slice.elems []) with
          | (_, some err) => (Slice.elems [], some err)
          | (res, none) => (res, none))) ∧
    (∀ input : OrderInput,
      (OrderServiceOp.Update c input).calls = [Call.Mutate [("input", input)]] ∧
      (OrderServiceOp.Update c input).outcome = Outcome.returned
        (match c.Mutate { OrderUpdateResult := { UserErrors := Slice.nil } }
            [("input", input)] with
          | (_, some err) => some err
          | (m, none) =>
            if m.OrderUpdateResult.UserErrors.len > 0 then
              some (Errorf (formatSlice D.formatUserErrors m.OrderUpdateResult.UserErrors))
            else none)) ∧
    (∀ orderID locationID : String,
      (OrderServiceOp.GetFulfillmentOrdersAtLocation c (Dyn.string orderID)
          (Dyn.string locationID)).calls
        = [Call.BulkQuery
            (ReplaceAll (ReplaceAll fulfillmentOrdersAtLocationTemplate "$id" orderID) "$query"
              (Sprintf "assigned_location_id:%s" [locationID]))] ∧
      (OrderServiceOp.GetFulfillmentOrdersAtLocation c (Dyn.string orderID)
          (Dyn.string locationID)).outcome = Outcome.returned
        (match c.BulkQueryFulfillmentOrders
            (ReplaceAll (ReplaceAll fulfillmentOrdersAtLocationTemplate "$id" orderID) "$query"
              (Sprintf "assigned_location_id:%s" [locationID])) (Slice.elems []) with
          | (_, some err) => (Slice.elems [], some err)
          | (res, none) => (res, none))) ∧
    (∀ orderID locationID : ID, (orderID.isString && locationID.isString) = false →
      (OrderServiceOp.GetFulfillmentOrdersAtLocation c orderID locationID).calls = [] ∧
      (OrderServiceOp.GetFulfillmentOrdersAtLocation c orderID locationID).outcome
        = Outcome.panicked) := by
  refine ⟨?_, ?_, ?_, ?_, ?_, ?_⟩
  · intro id
    rw [get_run]
    exact ⟨rfl, rfl⟩
  · intro query
    rw [list_run]
    exact ⟨rfl, rfl⟩
  · rw [listAll_run]
    exact ⟨rfl, rfl⟩
  · intro input
    rw [update_run]
    exact ⟨rfl, rfl⟩
  · intro orderID locationID
    rw [location_run]
    exact ⟨rfl, rfl⟩
  · intro orderID locationID h
    rw [location_run_panic c orderID locationID h]
    exact ⟨rfl, rfl⟩

/-- C3 (witness): with the nil interface as location identifier,
`GetFulfillmentOrdersAtLocation` makes no call and panics. -/
theorem one_collaborator_call_witness :
    (OrderServiceOp.GetFulfillmentOrdersAtLocation (answeringClient Slice.nil NodeJSON.null)
        (Dyn.string "gid://shopify/Order/1") Dyn.nil).calls = [] ∧
    (OrderServiceOp.GetFulfillmentOrdersAtLocation (answeringClient Slice.nil NodeJSON.null)
        (Dyn.string "gid://shopify/Order/1") Dyn.nil).outcome = Outcome.panicked :=
  (one_collaborator_call (answeringClient Slice.nil NodeJSON.null)).2.2.2.2.2
    (Dyn.string "gid://shopify/Order/1") Dyn.nil rfl

/-- C2: when the collaborator call of an operation fails with error `e`, the
operation returns `e` itself and no data: `Get` a nil result, `Update` the
error alone, and `List`, `ListAll` and `GetFulfillmentOrdersAtLocation` an
empty slice that is not nil, whatever the collaborator left in the output. The
failing call is the one call the operation makes. -/
theorem failure_is_returned_unchanged {D : Decls} (c : Client D) (e : GoError) :
    (∀ (id : ID) (out : Option (OrderQueryResult D)),
      c.QueryString (Sprintf getFormat [orderBaseQuery]) [("id", id)] none = (out, some e) →
      (OrderServiceOp.Get c id).calls
        = [Call.QueryString (Sprintf getFormat [orderBaseQuery]) [("id", id)]] ∧
      (OrderServiceOp.Get c id).outcome = Outcome.returned (none, some e)) ∧
    (∀ (input : OrderInput) (m : mutationOrderUpdate D),
      c.Mutate { OrderUpdateResult := { UserErrors := Slice.nil } } [("input", input)]
        = (m, some e) →
      (OrderServiceOp.Update c input).calls = [Call.Mutate [("input", input)]] ∧
      (OrderServiceOp.Update c input).outcome = Outcome.returned (some e)) ∧
    (∀ (query : String) (buf : Slice (Option (Order D))),
      c.BulkQueryOrders (ReplaceAll (Sprintf listFormat [orderBaseQuery]) "$query" query)
        (Slice.elems []) = (buf, some e) →
      (OrderServiceOp.List c query).calls
        = [Call.BulkQuery (ReplaceAll (Sprintf listFormat [orderBaseQuery]) "$query" query)] ∧
      (OrderServiceOp.List c query).outcome = Outcome.returned (Slice.elems [], some e)) ∧
    (∀ buf : Slice (Option (Order D)),
      c.BulkQueryOrders (Sprintf listAllFormat [orderBaseQuery]) (Slice.elems [])
        = (buf, some e) →
      (OrderServiceOp.ListAll c).calls
        = [Call.BulkQuery (Sprintf listAllFormat [orderBaseQuery])] ∧
      (OrderServiceOp.ListAll c).outcome = Outcome.returned (Slice.elems [], some e)) ∧
    (∀ (orderID locationID : String) (buf : Slice (FulfillmentOrder D)),
      c.BulkQueryFulfillmentOrders
        (ReplaceAll (ReplaceAll fulfillmentOrdersAtLocationTemplate "$id" orderID) "$query"
          (Sprintf "assigned_location_id:%s" [locationID])) (Slice.elems []) = (buf, some e) →
      (OrderServiceOp.GetFulfillmentOrdersAtLocation c (Dyn.string orderID)
          (Dyn.string locationID)).calls
        = [Call.BulkQuery
            (ReplaceAll (ReplaceAll fulfillmentOrdersAtLocationTemplate "$id" orderID) "$query"
              (Sprintf "assigned_location_id:%s" [locationID]))] ∧
      (OrderServiceOp.GetFulfillmentOrdersAtLocation c (Dyn.string orderID)
          (Dyn.string locationID)).outcome = Outcome.returned (Slice.elems [], some e)) := by
  refine ⟨?_, ?_, ?_, ?_, ?_⟩
  · intro id out hfail
    rw [get_run, hfail]
    exact ⟨rfl, rfl⟩
  · intro input m hfail
    rw [update_run, hfail]
    exact ⟨rfl, rfl⟩
  · intro query buf hfail
    rw [list_run, hfail]
    exact ⟨rfl, rfl⟩
  · intro buf hfail
    rw [listAll_run, hfail]
    exact ⟨rfl, rfl⟩
  · intro orderID locationID buf hfail
    rw [location_run, hfail]
    exact ⟨rfl, rfl⟩

/-- C2 (witness): with a client whose collaborators all fail with
`sampleError` after the bulk runner wrote into the output, each operation
returns `sampleError` and no data. -/
theorem failure_is_returned_unchanged_witness :
    (OrderServiceOp.Get failingClient (Dyn.string "gid://shopify/Order/1")).outcome
      = Outcome.returned (none, some sampleError) ∧
    (OrderServiceOp.Update failingClient
        { ID := Dyn.string "gid://shopify/Order/1", Tags := Slice.nil, Note := "" }).outcome
      = Outcome.returned (some sampleError) ∧
    (OrderServiceOp.List failingClient "status:open").outcome
      = Outcome.returned (Slice.elems [], some sampleError) ∧
    (OrderServiceOp.ListAll failingClient).outcome
      = Outcome.returned (Slice.elems [], some sampleError) ∧
    (OrderServiceOp.GetFulfillmentOrdersAtLocation failingClient
        (Dyn.string "gid://shopify/Order/1") (Dyn.string "42")).outcome
      = Outcome.returned (Slice.elems [], some sampleError) :=
  ⟨((failure_is_returned_unchanged failingClient sampleError).1 _ _ rfl).2,
   ((failure_is_returned_unchanged failingClient sampleError).2.1 _ _ rfl).2,
   ((failure_is_returned_unchanged failingClient sampleError).2.2.1 _ _ rfl).2,
   ((failure_is_returned_unchanged failingClient sampleError).2.2.2.1 _ rfl).2,
   ((failure_is_returned_unchanged failingClient sampleError).2.2.2.2 _ _ _ rfl).2⟩

/-- Every string of the list occurs in the space-separated joining of the list. -/
theorem infix_joinWithSpace (xs : List String) (x : String) (hx : x ∈ xs) :
    x.data <:+: joinWithSpace xs := by
  induction xs with
  | nil => cases hx
  | cons a rest ih =>
    cases rest with
    | nil =>
      have hxa : x = a := by simpa using hx
      subst hxa
      exact List.infix_refl _
    | cons b rest =>
      rcases List.mem_cons.mp hx with hxa | hmem
      · subst hxa
        exact (List.prefix_append _ _).isInfix
      · exact (ih hmem).trans
          ((List.suffix_cons ' ' _).trans (List.suffix_append _ _)).isInfix

/-- The rendering of an element occurs in the rendering of the slice. -/
theorem infix_formatSlice {α : Type} (render : α → String) (s : Slice α) (x : α)
    (hx : x ∈ s.toList) : (render x).data <:+: (formatSlice render s).data := by
  have hjoin := infix_joinWithSpace (s.toList.map render) (render x) (List.mem_map_of_mem render hx)
  exact hjoin.trans ((List.prefix_append _ _).isInfix.trans (List.suffix_cons '[' _).isInfix)

/-- C1: when `Mutate` succeeds and leaves the decoded response in `m`, `Update`
returns an error exactly when the user errors of the response are not empty.
For an empty list it returns nil. For a non-empty list the text of the error is
the `%+v` rendering of the whole list, which contains the rendering of every
user error reported. -/
theorem update_reports_user_errors {D : Decls} (c : Client D) (input : OrderInput)
    (m : mutationOrderUpdate D)
    (hMutate : c.Mutate { OrderUpdateResult := { UserErrors := Slice.nil } } [("input", input)]
      = (m, none)) :
    ((∃ err, (OrderServiceOp.Update c input).outcome = Outcome.returned (some err))
        ↔ m.OrderUpdateResult.UserErrors.len ≠ 0) ∧
    (m.OrderUpdateResult.UserErrors.len = 0 →
      (OrderServiceOp.Update c input).outcome = Outcome.returned none) ∧
    (m.OrderUpdateResult.UserErrors.len ≠ 0 →
      ∃ err, (OrderServiceOp.Update c input).outcome = Outcome.returned (some err) ∧
        err.text = formatSlice D.formatUserErrors m.OrderUpdateResult.UserErrors ∧
        ∀ u ∈ m.OrderUpdateResult.UserErrors.toList,
          (D.formatUserErrors u).data <:+: err.text.data) := by
  by_cases hlen : m.OrderUpdateResult.UserErrors.len = 0
  · have hout : (OrderServiceOp.Update c input).outcome = Outcome.returned none := by
      rw [update_run, hMutate]
      simp [hlen]
    refine ⟨?_, fun _ => hout, fun h => absurd hlen h⟩
    constructor
    · rintro ⟨err, herr⟩
      rw [hout] at herr
      cases herr
    · intro h
      exact absurd hlen h
  · have hpos : m.OrderUpdateResult.UserErrors.len > 0 := Nat.pos_of_ne_zero hlen
    have hout : (OrderServiceOp.Update c input).outcome = Outcome.returned
        (some (Errorf (formatSlice D.formatUserErrors m.OrderUpdateResult.UserErrors))) := by
      rw [update_run, hMutate]
      simp [hpos]
    refine ⟨⟨fun _ => hlen, fun _ => ⟨_, hout⟩⟩, fun h => absurd h hlen, fun _ => ?_⟩
    exact ⟨_, hout, rfl, fun u hu => infix_formatSlice D.formatUserErrors _ u hu⟩

/-- C1 (witness): a response with two user errors makes `Update` fail with an
error whose text contains both renderings, the one of the invalid tags and the
one of the note. -/
theorem update_reports_user_errors_witness :
    ∃ err, (OrderServiceOp.Update (answeringClient twoUserErrors NodeJSON.null)
        { ID := Dyn.string "gid://shopify/Order/1", Tags := Slice.nil, Note := "" }).outcome
          = Outcome.returned (some err) ∧
      err.text = "[\x7bField:[input tags] Message:Tags is invalid\x7d \x7bField:[input note] Message:Note is too long\x7d]" ∧
      "\x7bField:[input tags] Message:Tags is invalid\x7d".data <:+: err.text.data ∧
      "\x7bField:[input note] Message:Note is too long\x7d".data <:+: err.text.data := by
  obtain ⟨err, hout, htext, hall⟩ :=
    (update_reports_user_errors (answeringClient twoUserErrors NodeJSON.null)
      { ID := Dyn.string "gid://shopify/Order/1", Tags := Slice.nil, Note := "" }
      { OrderUpdateResult := { UserErrors := twoUserErrors } } rfl).2.2 (by decide)
  refine ⟨err, hout, ?_, ?_, ?_⟩
  · rw [htext]; decide
  · exact hall { Field := ["input", "tags"], Message := "Tags is invalid" }
      (by simp [twoUserErrors, Slice.toList])
  · exact hall { Field := ["input", "note"], Message := "Note is too long" }
      (by simp [twoUserErrors, Slice.toList])

/-- The calls of `Update`: one `Mutate` with the input as the variable `input`. -/
theorem update_calls {D : Decls} (c : Client D) (input : OrderInput) :
    (OrderServiceOp.Update c input).calls = [Call.Mutate [("input", input)]] := by
  rw [update_run]

/-- C5 (counterexample): when the response carries a node that is not an Order
(an empty object), `Get` returns a pointer to a zero `OrderQueryResult`, not a
nil result. -/
theorem get_non_order_node_is_not_nil :
    (OrderServiceOp.Get (answeringClient Slice.nil (NodeJSON.object none))
        (Dyn.string "gid://shopify/Product/1")).outcome
      = Outcome.returned (some (OrderQueryResult.zero sampleDecls), none) ∧
    (OrderServiceOp.Get (answeringClient Slice.nil (NodeJSON.object none))
        (Dyn.string "gid://shopify/Product/1")).outcome
      ≠ Outcome.returned (none, none) := by
  constructor
  · rfl
  · intro h
    have h2 : (OrderServiceOp.Get (answeringClient Slice.nil (NodeJSON.object none))
        (Dyn.string "gid://shopify/Product/1")).outcome
      = Outcome.returned (some (OrderQueryResult.zero sampleDecls), none) := rfl
    rw [h2] at h
    cases h

/-- C5 (amended): when `QueryString` succeeds and has decoded the node of the
response, `Get` returns no error and: a nil result for a `null` node; a result
that is not nil, with every field at its zero value, for a node that is not an
Order; the decoded order otherwise. -/
theorem get_returns_decoded_node {D : Decls} (c : Client D) (id : ID) (node : NodeJSON D)
    (hQuery : c.QueryString (Sprintf getFormat [orderBaseQuery]) [("id", id)] none
      = (decodeNode node, none)) :
    (OrderServiceOp.Get c id).outcome =
      Outcome.returned
        (match node with
          | NodeJSON.null => none
          | NodeJSON.object none => some (OrderQueryResult.zero D)
          | NodeJSON.object (some o) => some o,
         none) := by
  have hout : (OrderServiceOp.Get c id).outcome = Outcome.returned (decodeNode node, none) := by
    rw [get_run, hQuery]
  rw [hout]
  cases node with
  | null => rfl
  | object fields => cases fields <;> rfl

/-- C5 (witness): the three kinds of node, answered by a client whose query
succeeds. -/
theorem get_returns_decoded_node_witness :
    (OrderServiceOp.Get (answeringClient Slice.nil NodeJSON.null)
        (Dyn.string "gid://shopify/Order/0")).outcome = Outcome.returned (none, none) ∧
    (OrderServiceOp.Get (answeringClient Slice.nil (NodeJSON.object none))
        (Dyn.string "gid://shopify/Product/1")).outcome
      = Outcome.returned (some (OrderQueryResult.zero sampleDecls), none) ∧
    (OrderServiceOp.Get (answeringClient Slice.nil (NodeJSON.object (some sampleOrderQueryResult)))
        (Dyn.string "gid://shopify/Order/1")).outcome
      = Outcome.returned (some sampleOrderQueryResult, none) :=
  ⟨get_returns_decoded_node (answeringClient Slice.nil NodeJSON.null) _ NodeJSON.null rfl,
   get_returns_decoded_node (answeringClient Slice.nil (NodeJSON.object none)) _
     (NodeJSON.object none) rfl,
   get_returns_decoded_node
     (answeringClient Slice.nil (NodeJSON.object (some sampleOrderQueryResult))) _
     (NodeJSON.object (some sampleOrderQueryResult)) rfl⟩

/-- C6 (counterexample): for an input whose tag set is present and empty, the
encoded input has no member `tags`, and the encoded variables of the `Mutate`
call are those of the input whose tag set is absent. -/
theorem update_empty_tags_sends_no_tags :
    (OrderInput.toJSON emptyTagsInput).member "tags" = none ∧
    (OrderInput.toJSON emptyTagsInput).keys = ["id"] ∧
    (OrderServiceOp.Update (answeringClient Slice.nil NodeJSON.null) emptyTagsInput).calls.map
        Call.variablesJSON
      = (OrderServiceOp.Update (answeringClient Slice.nil NodeJSON.null) absentTagsInput).calls.map
        Call.variablesJSON := by
  refine ⟨rfl, by decide, ?_⟩
  rw [update_calls, update_calls]
  rfl

/-- C6 (amended): `Update` with an input whose tag set is present and empty
makes its `Mutate` call, and the encoded input has no member `tags`: it is the
encoding of the same input with the tag set absent, so the request does not
clear the tags. -/
theorem update_empty_tags_same_as_absent {D : Decls} (c : Client D) (id : ID) (note : String) :
    (OrderServiceOp.Update c { ID := id, Tags := Slice.elems [], Note := note }).calls
      = [Call.Mutate [("input", { ID := id, Tags := Slice.elems [], Note := note })]] ∧
    (OrderInput.toJSON { ID := id, Tags := Slice.elems [], Note := note }).member "tags" = none ∧
    "tags" ∉ (OrderInput.toJSON { ID := id, Tags := Slice.elems [], Note := note }).keys ∧
    OrderInput.toJSON { ID := id, Tags := Slice.elems [], Note := note }
      = OrderInput.toJSON { ID := id, Tags := Slice.nil, Note := note } := by
  refine ⟨update_calls c _, ?_, ?_, rfl⟩
  · cases id <;> by_cases hnote : note.length = 0 <;>
      simp [OrderInput.toJSON, JSON.member, Slice.len, Slice.toList, hnote, List.find?]
  · cases id <;> by_cases hnote : note.length = 0 <;>
      simp [OrderInput.toJSON, JSON.keys, Slice.len, Slice.toList, hnote]

/-- C7 (counterexample): a tag set that is present and empty is not nil, yet
the encoded input has no member `tags`; its members are `id` and `note`. -/
theorem update_present_empty_tags_omitted :
    emptyTagsWithNoteInput.Tags.isNil = false ∧
    (OrderInput.toJSON emptyTagsWithNoteInput).member "tags" = none ∧
    (OrderInput.toJSON emptyTagsWithNoteInput).keys = ["id", "note"] := by
  refine ⟨rfl, rfl, by decide⟩

/-- C7 (amended): the encoded input has a member `id` exactly when the
identifier is not nil, a member `tags` exactly when the tag set has at least
one element, and a member `note` exactly when the note is not empty; each
member present holds the value of its field. `Update` sends this encoding as
the variable `input`, and for an input with only the identifier
`gid://Order/1` the encoded input has the single key `id`. -/
theorem update_input_encoding {D : Decls} (c : Client D) (input : OrderInput) :
    (OrderServiceOp.Update c input).calls.map Call.variablesJSON
      = [JSON.object [("input", input.toJSON)]] ∧
    input.toJSON.member "id" = (if input.ID.isNil = true then none else some input.ID.toJSON) ∧
    input.toJSON.member "tags" =
      (if input.Tags.len = 0 then none
       else some (JSON.array (input.Tags.toList.map JSON.string))) ∧
    input.toJSON.member "note" =
      (if input.Note.length = 0 then none else some (JSON.string input.Note)) ∧
    input.toJSON.keys =
      (if input.ID.isNil = true then [] else ["id"]) ++
      (if input.Tags.len = 0 then [] else ["tags"]) ++
      (if input.Note.length = 0 then [] else ["note"]) ∧
    OrderInput.toJSON { ID := Dyn.string "gid://Order/1", Tags := Slice.nil, Note := "" }
      = JSON.object [("id", JSON.string "gid://Order/1")] := by
  refine ⟨?_, ?_, ?_, ?_, ?_, rfl⟩
  · rw [update_calls]; rfl
  all_goals
    obtain ⟨id, tags, note⟩ := input
    cases id <;> by_cases htags : tags.len = 0 <;> by_cases hnote : note.length = 0 <;>
      simp [OrderInput.toJSON, JSON.member, JSON.keys, Dyn.isNil, Dyn.toJSON, htags, hnote,
        List.find?]

/-- C9: the unwrapping keeps the fields of `OrderBase`; its line items are a
slice that is not nil, as long as the edges and equal to the edge nodes in
order; its fulfillment orders are a slice that is not nil, as long as the
edges, and each has the identifier and status of its node and, as line items,
a slice that is not nil holding the edge nodes of that node in order. -/
theorem unwrap_flattens_connections {D : Decls} (r : OrderQueryResult D) :
    (unwrap r).toOrderBase = r.toOrderBase ∧
    (unwrap r).LineItems.isNil = false ∧
    (unwrap r).LineItems.len = r.LineItems.Edges.len ∧
    (unwrap r).LineItems.toList = r.LineItems.Edges.toList.map (fun e => e.LineItem) ∧
    (unwrap r).FulfillmentOrders.isNil = false ∧
    (unwrap r).FulfillmentOrders.len = r.FulfillmentOrders.Edges.len ∧
    List.Forall₂
      (fun (fo : FulfillmentOrder D) (e : FulfillmentOrderEdge D) =>
        fo.ID = e.FulfillmentOrder.ID ∧ fo.Status = e.FulfillmentOrder.Status ∧
        fo.FulfillmentOrderLineItems.isNil = false ∧
        fo.FulfillmentOrderLineItems.len = e.FulfillmentOrder.FulfillmentOrderLineItems.Edges.len ∧
        fo.FulfillmentOrderLineItems.toList =
          e.FulfillmentOrder.FulfillmentOrderLineItems.Edges.toList.map (fun x => x.LineItem))
      (unwrap r).FulfillmentOrders.toList r.FulfillmentOrders.Edges.toList := by
  refine ⟨rfl, rfl, ?_, rfl, rfl, ?_, ?_⟩
  · simp [unwrap, Slice.len, Slice.toList]
  · simp [unwrap, Slice.len, Slice.toList]
  · simp only [unwrap, Slice.toList]
    rw [List.forall₂_map_left_iff]
    apply List.forall₂_same.mpr
    intro e _
    exact ⟨rfl, rfl, rfl, by simp [unwrapFulfillmentOrder, Slice.len, Slice.toList], rfl⟩

/-- C9 (witness): three line items and two fulfillment orders with two line
items each unwrap to sequences of lengths 3, 2 and 2/2 holding the leaf nodes
in order, with the fields of the order kept. -/
theorem unwrap_flattens_connections_witness :
    (unwrap sampleOrderQueryResult).toOrderBase = sampleOrderQueryResult.toOrderBase ∧
    (unwrap sampleOrderQueryResult).LineItems.len = 3 ∧
    (unwrap sampleOrderQueryResult).LineItems.toList =
      [sampleLineItem "gid://shopify/LineItem/1" "SKU-1" 1,
       sampleLineItem "gid://shopify/LineItem/2" "SKU-2" 2,
       sampleLineItem "gid://shopify/LineItem/3" "SKU-3" 3] ∧
    (unwrap sampleOrderQueryResult).FulfillmentOrders.len = 2 ∧
    (unwrap sampleOrderQueryResult).FulfillmentOrders.toList.map
        (fun fo => fo.FulfillmentOrderLineItems.len) = [2, 2] ∧
    (unwrap sampleOrderQueryResult).FulfillmentOrders.toList.map
        (fun fo => fo.FulfillmentOrderLineItems.toList) =
      [[sampleFulfillmentOrderLineItem "gid://shopify/FulfillmentOrderLineItem/1" 1 1,
        sampleFulfillmentOrderLineItem "gid://shopify/FulfillmentOrderLineItem/2" 0 2],
       [sampleFulfillmentOrderLineItem "gid://shopify/FulfillmentOrderLineItem/3" 2 2,
        sampleFulfillmentOrderLineItem "gid://shopify/FulfillmentOrderLineItem/4" 0 3]] :=
  ⟨(unwrap_flattens_connections sampleOrderQueryResult).1,
   (unwrap_flattens_connections sampleOrderQueryResult).2.2.1,
   (unwrap_flattens_connections sampleOrderQueryResult).2.2.2.1,
   (unwrap_flattens_connections sampleOrderQueryResult).2.2.2.2.2.1,
   rfl, rfl⟩

/-! ### Documents -/

/-- The characters of the result of `ReplaceAll` for a pattern that is not
empty. -/
theorem ReplaceAll_data (s old new : String) (hold : old.data ≠ []) :
    (ReplaceAll s old new).data = replaceFrom old.data new.data 0 s.data := by
  simp [ReplaceAll, hold]

/-- The filter predicate built by `GetFulfillmentOrdersAtLocation`. -/
theorem sprintf_assigned_location (locationID : String) :
    Sprintf "assigned_location_id:%s" [locationID] = "assigned_location_id:" ++ locationID := by
  apply String.ext
  simp [Sprintf, sprintfChars]

set_option maxRecDepth 100000 in
/-- The template of `GetFulfillmentOrdersAtLocation`, cut at its two quoted
placeholders. -/
theorem template_parts :
    fulfillmentOrdersAtLocationTemplate.data =
      locationDocumentHead.data ++ '"' :: (['$', 'i', 'd'] ++ '"' ::
        (locationDocumentMiddle.data ++ '"' ::
          (['$', 'q', 'u', 'e', 'r', 'y'] ++ '"' :: locationDocumentTail.data))) := by
  decide!

set_option maxRecDepth 100000 in
/-- The document that `GetFulfillmentOrdersAtLocation` builds for an order
identifier that does not contain `$query`: the template with each quoted
placeholder replaced by its value. -/
theorem location_document (orderID locationID : String)
    (hquery : ¬ "$query".data <:+: orderID.data) :
    ReplaceAll (ReplaceAll fulfillmentOrdersAtLocationTemplate "$id" orderID) "$query"
        (Sprintf "assigned_location_id:%s" [locationID])
      = locationDocumentHead ++ "\"" ++ orderID ++ "\"" ++ locationDocumentMiddle ++ "\"" ++
          ("assigned_location_id:" ++ locationID) ++ "\"" ++ locationDocumentTail := by
  apply String.ext
  rw [ReplaceAll_data _ _ _ (by decide!), ReplaceAll_data _ _ _ (by decide!), template_parts]
  have hid : "$id".data = ['$', 'i', 'd'] := rfl
  have hq : "$query".data = ['$', 'q', 'u', 'e', 'r', 'y'] := rfl
  rw [hid, hq, replace_both_placeholders _ _ _ _ _ (by decide!) (by decide!) (by decide!)
    (by rw [← hq]; exact hquery), sprintf_assigned_location]
  simp [String.data_append]

/-- The calls of `GetFulfillmentOrdersAtLocation` for identifiers that hold
strings: one `BulkQuery` with the template after both replacements. -/
theorem location_calls {D : Decls} (c : Client D) (orderID locationID : String) :
    (OrderServiceOp.GetFulfillmentOrdersAtLocation c (Dyn.string orderID)
        (Dyn.string locationID)).calls
      = [Call.BulkQuery
          (ReplaceAll (ReplaceAll fulfillmentOrdersAtLocationTemplate "$id" orderID) "$query"
            (Sprintf "assigned_location_id:%s" [locationID]))] := by
  rw [location_run]

set_option maxRecDepth 100000 in
/-- C4 (counterexample): for the order identifier `$query` and the location
identifier `1`, the document passed to `BulkQuery` contains
`assigned_location_id:1` twice: once as the order identifier and once as the
filter. -/
theorem location_filter_occurs_twice :
    ∃ q, (OrderServiceOp.GetFulfillmentOrdersAtLocation (answeringClient Slice.nil NodeJSON.null)
        (Dyn.string "$query") (Dyn.string "1")).calls = [Call.BulkQuery q] ∧
      occurrences "assigned_location_id:1".data q.data = 2 :=
  ⟨_, rfl, by decide!⟩

set_option maxRecDepth 100000 in
/-- C4 (amended): for string identifiers where the order identifier contains
neither `$query` nor `assigned_location_id:`, the document passed to
`BulkQuery` is the template with the order identifier and the filter
`assigned_location_id:<locationID>` in place of the quoted placeholders, and
the filter text occurs in it at exactly one position. -/
theorem location_filter_occurs_once {D : Decls} (c : Client D) (orderID locationID : String)
    (hquery : ¬ "$query".data <:+: orderID.data)
    (hfilter : ¬ "assigned_location_id:".data <:+: orderID.data) :
    ∃ q, (OrderServiceOp.GetFulfillmentOrdersAtLocation c (Dyn.string orderID)
        (Dyn.string locationID)).calls = [Call.BulkQuery q] ∧
      q = locationDocumentHead ++ "\"" ++ orderID ++ "\"" ++ locationDocumentMiddle ++
          "\"" ++ ("assigned_location_id:" ++ locationID) ++ "\"" ++ locationDocumentTail ∧
      occurrences ("assigned_location_id:" ++ locationID).data q.data = 1 := by
  refine ⟨_, location_calls c orderID locationID, location_document orderID locationID hquery, ?_⟩
  rw [location_document orderID locationID hquery]
  have hshape : (locationDocumentHead ++ "\"" ++ orderID ++ "\"" ++ locationDocumentMiddle ++
      "\"" ++ ("assigned_location_id:" ++ locationID) ++ "\"" ++ locationDocumentTail).data
      = (locationDocumentHead.data ++ '"' :: (orderID.data ++ '"' :: locationDocumentMiddle.data))
          ++ '"' :: ("assigned_location_id:".data ++ locationID.data
            ++ '"' :: locationDocumentTail.data) := by
    simp [String.data_append]
  rw [hshape, String.data_append]
  apply occurrences_eq_one
  · decide!
  · decide!
  · exact not_infix_of_parts _ _ _ _ '"' (by decide!) (by decide!) (by decide!) hfilter (by decide!)
  · decide!

set_option maxRecDepth 100000 in
/-- C4 (witness): the document for the order `gid://shopify/Order/1` and the
location `42` contains `assigned_location_id:42` exactly once. -/
theorem location_filter_occurs_once_witness :
    ∃ q, (OrderServiceOp.GetFulfillmentOrdersAtLocation (answeringClient Slice.nil NodeJSON.null)
        (Dyn.string "gid://shopify/Order/1") (Dyn.string "42")).calls = [Call.BulkQuery q] ∧
      q = locationDocumentHead ++ "\"" ++ "gid://shopify/Order/1" ++ "\"" ++
          locationDocumentMiddle ++ "\"" ++ ("assigned_location_id:" ++ "42") ++ "\"" ++
          locationDocumentTail ∧
      occurrences ("assigned_location_id:" ++ "42").data q.data = 1 :=
  location_filter_occurs_once (answeringClient Slice.nil NodeJSON.null)
    "gid://shopify/Order/1" "42" (by decide!) (by decide!)

/-- The calls of `ListAll`: one `BulkQuery` with the formatted document. -/
theorem listAll_calls {D : Decls} (c : Client D) :
    (OrderServiceOp.ListAll c).calls = [Call.BulkQuery (Sprintf listAllFormat [orderBaseQuery])] := by
  rw [listAll_run]

set_option maxRecDepth 100000 in
/-- C8: the document that `ListAll` passes to `BulkQuery` still holds the
placeholder: its selection of orders is `orders(query: "$query")`, and the text
`$query` occurs in the document once. -/
theorem listAll_sends_placeholder {D : Decls} (c : Client D) :
    ∃ q, (OrderServiceOp.ListAll c).calls = [Call.BulkQuery q] ∧
      "orders(query: \"$query\")".data <:+: q.data ∧
      occurrences "$query".data q.data = 1 := by
  refine ⟨_, listAll_calls c, ?_, ?_⟩
  · decide!
  · decide!

/-- The calls of `List`: one `BulkQuery` with the formatted document after the
replacement of `$query`. -/
theorem list_calls {D : Decls} (c : Client D) (query : String) :
    (OrderServiceOp.List c query).calls
      = [Call.BulkQuery (ReplaceAll (Sprintf listFormat [orderBaseQuery]) "$query" query)] := by
  rw [list_run]

set_option maxRecDepth 100000 in
/-- The formatted document of `List`, cut at its placeholder. -/
theorem list_format_parts :
    (Sprintf listFormat [orderBaseQuery]).data =
      ((Sprintf listFormat [orderBaseQuery]).data.take 8 ++ "orders(query: \"".data) ++
        (['$', 'q', 'u', 'e', 'r', 'y'] ++
          ("\")".data ++ (Sprintf listFormat [orderBaseQuery]).data.drop 31)) := by
  decide!

set_option maxRecDepth 100000 in
/-- The document of `List`: the filter string stands in place of the
placeholder, between the quotes of `orders(query: "...")`. -/
theorem list_document (query : String) :
    (ReplaceAll (Sprintf listFormat [orderBaseQuery]) "$query" query).data =
      ((Sprintf listFormat [orderBaseQuery]).data.take 8 ++ "orders(query: \"".data) ++
        (query.data ++ ("\")".data ++ (Sprintf listFormat [orderBaseQuery]).data.drop 31)) := by
  have hq : "$query".data = ['$', 'q', 'u', 'e', 'r', 'y'] := rfl
  rw [ReplaceAll_data _ _ _ (by decide!), hq]
  conv_lhs => rw [list_format_parts]
  rw [replaceFrom_copy '$' ['q', 'u', 'e', 'r', 'y'] _ _ _ (by decide!),
    replaceFrom_match ['$', 'q', 'u', 'e', 'r', 'y'] _ _ (by simp),
    replaceFrom_none '$' ['q', 'u', 'e', 'r', 'y'] _ _ (by decide!)]

set_option maxRecDepth 100000 in
/-- The document that `List` passes to `BulkQuery` selects
`orders(query: "<query>")`, and it has no `$` when the filter string has none. -/
theorem list_sends_filter {D : Decls} (c : Client D) (query : String) :
    ∃ q, (OrderServiceOp.List c query).calls = [Call.BulkQuery q] ∧
      ("orders(query: \"" ++ query ++ "\")").data <:+: q.data ∧
      ('$' ∉ query.data → '$' ∉ q.data) := by
  refine ⟨_, list_calls c query, ?_, ?_⟩
  · rw [list_document]
    refine ⟨(Sprintf listFormat [orderBaseQuery]).data.take 8,
      (Sprintf listFormat [orderBaseQuery]).data.drop 31, ?_⟩
    simp [String.data_append]
  · intro hno
    rw [list_document]
    have h1 : '$' ∉ (Sprintf listFormat [orderBaseQuery]).data.take 8 ++ "orders(query: \"".data := by
      decide!
    have h2 : '$' ∉ "\")".data ++ (Sprintf listFormat [orderBaseQuery]).data.drop 31 := by
      decide!
    intro hmem
    rcases List.mem_append.mp hmem with h | h
    · exact h1 h
    · rcases List.mem_append.mp h with h | h
      · exact hno h
      · exact h2 h

set_option maxRecDepth 100000 in
/-- The document that `GetFulfillmentOrdersAtLocation` passes to `BulkQuery`
has no `$` when the two identifiers have none. -/
theorem location_document_without_placeholder {D : Decls} (c : Client D)
    (orderID locationID : String) (horder : '$' ∉ orderID.data)
    (hlocation : '$' ∉ locationID.data) :
    ∃ q, (OrderServiceOp.GetFulfillmentOrdersAtLocation c (Dyn.string orderID)
        (Dyn.string locationID)).calls = [Call.BulkQuery q] ∧ '$' ∉ q.data := by
  have hquery : ¬ "$query".data <:+: orderID.data := by
    intro h
    exact horder (h.subset (by decide!))
  refine ⟨_, location_calls c orderID locationID, ?_⟩
  rw [location_document orderID locationID hquery]
  have h1 : '$' ∉ locationDocumentHead.data := by decide!
  have h2 : '$' ∉ locationDocumentMiddle.data := by decide!
  have h3 : '$' ∉ locationDocumentTail.data := by decide!
  have h4 : '$' ∉ "assigned_location_id:".data := by decide!
  simp only [String.data_append, List.mem_append, not_or]
  refine ⟨⟨⟨⟨⟨⟨⟨⟨h1, by decide!⟩, horder⟩, by decide!⟩, h2⟩, by decide!⟩, h4, hlocation⟩, by decide!⟩, h3⟩

end Shopify
